import Mathlib

/-!
Verification of the roadpulse-api access-resolution and notification fan-out core.

The Python source is shallowly embedded as follows:
* SQLAlchemy tables become Lean structures; the database session becomes an
  explicit `DB` record of row lists.  Queries preserve row (list) order; a
  query without `ORDER BY` returns rows in store order.
* The `access_data` Text column is modelled post-`json.loads`: the embedding
  records whether the cell is SQL NULL, the empty string, a string that
  `json.loads` rejects, or a string parsing to a JSON value `j`.  JSON numeric
  literals are modelled as integers (no claim involves floats).
* Python exception control flow (`try`/`except`) becomes `Option`: `none`
  models a raised exception at the modelled operation.
* SQL `IN` comparisons of an integer column against a Python list of parsed
  JSON values match only integer-valued elements (non-integer bind values
  match no row).
* Wall-clock reads (`datetime.now`, `datetime.utcnow`) become an explicit
  integer-time parameter threaded into the functions that read the clock.
-/

namespace RoadPulse

/-- JSON values as produced by `json.loads` (numbers restricted to integers). -/
inductive Json where
  | null
  | bool (b : Bool)
  | num (n : Int)
  | str (s : String)
  | arr (elems : List Json)
  | obj (fields : List (String × Json))

mutual

/-- Decidable equality for `Json` (the derive handler does not support the
nested occurrence of `Json` under `List`). -/
def Json.decEq : (a b : Json) → Decidable (a = b)
  | .null, .null => isTrue rfl
  | .bool x, .bool y =>
    if h : x = y then isTrue (by rw [h]) else
      isFalse (by intro c; injection c; contradiction)
  | .num x, .num y =>
    if h : x = y then isTrue (by rw [h]) else
      isFalse (by intro c; injection c; contradiction)
  | .str x, .str y =>
    if h : x = y then isTrue (by rw [h]) else
      isFalse (by intro c; injection c; contradiction)
  | .arr xs, .arr ys =>
    match Json.decEqList xs ys with
    | isTrue h => isTrue (by rw [h])
    | isFalse h => isFalse (by intro c; injection c; contradiction)
  | .obj xs, .obj ys =>
    match Json.decEqFields xs ys with
    | isTrue h => isTrue (by rw [h])
    | isFalse h => isFalse (by intro c; injection c; contradiction)
  | .null, .bool _ | .null, .num _ | .null, .str _ | .null, .arr _
  | .null, .obj _ | .bool _, .null | .bool _, .num _ | .bool _, .str _
  | .bool _, .arr _ | .bool _, .obj _ | .num _, .null | .num _, .bool _
  | .num _, .str _ | .num _, .arr _ | .num _, .obj _ | .str _, .null
  | .str _, .bool _ | .str _, .num _ | .str _, .arr _ | .str _, .obj _
  | .arr _, .null | .arr _, .bool _ | .arr _, .num _ | .arr _, .str _
  | .arr _, .obj _ | .obj _, .null | .obj _, .bool _ | .obj _, .num _
  | .obj _, .str _ | .obj _, .arr _ => isFalse (by intro c; exact Json.noConfusion c)

/-- Decidable equality for lists of `Json`. -/
def Json.decEqList : (a b : List Json) → Decidable (a = b)
  | [], [] => isTrue rfl
  | [], _ :: _ => isFalse (by intro c; exact List.noConfusion c)
  | _ :: _, [] => isFalse (by intro c; exact List.noConfusion c)
  | x :: xs, y :: ys =>
    match Json.decEq x y, Json.decEqList xs ys with
    | isTrue h1, isTrue h2 => isTrue (by rw [h1, h2])
    | isFalse h1, _ => isFalse (by intro c; injection c; contradiction)
    | _, isFalse h2 => isFalse (by intro c; injection c; contradiction)

/-- Decidable equality for JSON object field lists. -/
def Json.decEqFields : (a b : List (String × Json)) → Decidable (a = b)
  | [], [] => isTrue rfl
  | [], _ :: _ => isFalse (by intro c; exact List.noConfusion c)
  | _ :: _, [] => isFalse (by intro c; exact List.noConfusion c)
  | (k1, v1) :: xs, (k2, v2) :: ys =>
    if hk : k1 = k2 then
      match Json.decEq v1 v2, Json.decEqFields xs ys with
      | isTrue h1, isTrue h2 => isTrue (by rw [hk, h1, h2])
      | isFalse h1, _ => isFalse (by
          intro c
          injection c with c1 c2
          injection c1 with _ cv
          exact h1 cv)
      | _, isFalse h2 => isFalse (by intro c; injection c; contradiction)
    else
      isFalse (by
        intro c
        injection c with c1 c2
        injection c1 with ck _
        exact hk ck)

end

instance : DecidableEq Json := Json.decEq

/-- The `access_data` cell of `trn_access_control`, modelled post-parse:
`sqlNull` is SQL NULL (wildcard); `emptyStr` is the empty string (falsy,
and rejected by `json.loads`); `badJson` is a non-empty string `json.loads`
raises on; `parsed j` is a non-empty string that parses to `j`. -/
inductive AccessData where
  | sqlNull
  | emptyStr
  | badJson
  | parsed (j : Json)
deriving DecidableEq

/-- Row of `trn_access_control` (fields the core reads). -/
structure TrnAccessControl where
  user_id : Int
  access_type : String
  access_data : AccessData
  can_view : Bool := true
  can_create : Bool := false
  can_update : Bool := false
  can_delete : Bool := false
  disabled : Bool := false
  is_deleted : Bool := false
deriving DecidableEq

/-- Row of `mst_locations` (fields the core reads). -/
structure MstLocation where
  location_id : Int
  company_id : Int
  location_name : String := ""
  disabled : Bool := false
  is_deleted : Bool := false
deriving DecidableEq

/-- Row of `mst_checkpoints` (fields the core reads). -/
structure MstCheckpoint where
  checkpoint_id : Int
  location_id : Int
  name : String := ""
  sequence_order : Int := 0
  disabled : Bool := false
  is_deleted : Bool := false
deriving DecidableEq

/-- Row of `mst_tabs` (fields the core reads). -/
structure MstTab where
  tab_id : Int
  tab_name : String := ""
  display_order : Int := 0
  disabled : Bool := false
  is_deleted : Bool := false
deriving DecidableEq

/-- Row of `mst_components` (fields the core reads). -/
structure MstComponent where
  component_id : Int
  tab_id : Int
  disabled : Bool := false
  is_deleted : Bool := false
deriving DecidableEq

/-- Row of `mst_cameras` (fields the core reads). -/
structure MstCamera where
  camera_id : Int
  checkpoint_id : Option Int := none
  location_id : Int
  disabled : Bool := false
  is_deleted : Bool := false
deriving DecidableEq

/-- Row of `mst_compute_boxes` (fields the core reads). -/
structure MstComputeBox where
  box_id : Int
  location_id : Int
  disabled : Bool := false
  is_deleted : Bool := false
deriving DecidableEq

/-- Row of `mst_users` (fields the core reads). -/
structure MstUser where
  id : Int
  company_id : Int
  role : String
  disabled : Bool := false
  is_deleted : Bool := false
deriving DecidableEq

/-- Row of `mst_notifications` (fields the core writes/reads; presentational
columns such as `context_data` carry no claim content and are elided). -/
structure MstNotification where
  notification_id : Int
  user_id : Option Int
  company_id : Option Int
  location_id : Option Int
  notification_type : String
  title : String
  message : String
  priority : String
  expires_at : Option Int
deriving DecidableEq

/-- Row of `trn_notification_tracker`. -/
structure TrnNotificationTracker where
  notification_id : Int
  user_id : Int
  is_read : Bool
  read_at : Option Int
deriving DecidableEq

/-- The transactional store: one list of rows per table, plus the
auto-increment counter for `mst_notifications.notification_id`. -/
structure DB where
  access_controls : List TrnAccessControl := []
  locations : List MstLocation := []
  checkpoints : List MstCheckpoint := []
  tabs : List MstTab := []
  components : List MstComponent := []
  cameras : List MstCamera := []
  compute_boxes : List MstComputeBox := []
  users : List MstUser := []
  notifications : List MstNotification := []
  trackers : List TrnNotificationTracker := []
  next_notification_id : Int := 1
deriving DecidableEq

/-- Python `==` between an `int` and a JSON-loaded value: integers compare
numerically, booleans compare as 1/0 (Python `True == 1`), everything else
is unequal. -/
def jsonEqInt (j : Json) (i : Int) : Bool :=
  match j with
  | .num n => n == i
  | .bool b => (if b then (1 : Int) else 0) == i
  | _ => false

/-- Python dict lookup `fields.get(k)`: `json.loads` keeps the last duplicate
key, so the last binding wins. -/
def jlookup (fields : List (String × Json)) (k : String) : Option Json :=
  (fields.reverse.find? (fun f => f.1 == k)).map (·.2)

/-- Python iteration as performed by `list.extend(v)`: a list yields its
elements, a string its one-character substrings, a dict its keys; other
values raise `TypeError` (`none`). -/
def pyIterElems : Json → Option (List Json)
  | .arr l => some l
  | .str s => some (s.toList.map (fun c => Json.str (String.mk [c])))
  | .obj fields => some (fields.map (fun f => Json.str f.1))
  | _ => none

/-- `data.get('access_ids', [])` guarded by the surrounding bare `except`:
a non-dict payload raises `AttributeError` (`none`). -/
def getAccessIdsVal : Json → Option Json
  | .obj fields => some ((jlookup fields "access_ids").getD (.arr []))
  | _ => none

/-- One row's contribution to the explicit branch of
`get_user_assigned_locations` (configuration/crud.py lines 59-66): the body
of `try: data = json.loads(...); ids = data.get('access_ids', []);
location_ids.extend(ids); except: continue`, preceded by the
`if access.access_data:` truthiness test.  Any exception inside the `try`
contributes nothing. -/
def rowExplicitIds (cell : AccessData) : List Json :=
  match cell with
  | .sqlNull => []
  | .emptyStr => []
  | .badJson => []
  | .parsed j =>
    match getAccessIdsVal j with
    | none => []
    | some v => (pyIterElems v).getD []

/-- The active location-grant rows of a user: the filter of the query at
configuration/crud.py lines 27-34. -/
def activeLocationGrants (db : DB) (user_id : Int) : List TrnAccessControl :=
  db.access_controls.filter (fun a =>
    a.user_id == user_id && a.access_type == "location" &&
    !a.disabled && !a.is_deleted)

/-- A location row is live: not disabled and not soft-deleted. -/
def locationActive (l : MstLocation) : Bool :=
  !l.disabled && !l.is_deleted

/-- `get_user_assigned_locations` (configuration/crud.py lines 11-80).
The returned Python list may contain non-integer elements when a grant's
`access_ids` is an iterable non-list; the result type is therefore
`List Json`.  `list(set(...))` is modelled by `List.dedup` (the claims read
the result as a set). -/
def get_user_assigned_locations (db : DB) (user_id company_id : Int)
    (role : String) : List Json :=
  let location_accesses := activeLocationGrants db user_id
  if location_accesses.isEmpty then []
  else if location_accesses.any (fun a => a.access_data == .sqlNull) then
    -- NULL access_data: ALL locations, company-filtered for non-creator roles
    let q := db.locations.filter locationActive
    let q := if role != "creator" then
      q.filter (fun l => l.company_id == company_id) else q
    q.map (fun l => Json.num l.location_id)
  else
    let location_ids := location_accesses.foldl
      (fun acc a => acc ++ rowExplicitIds a.access_data) []
    let location_ids :=
      if !location_ids.isEmpty && role != "creator" then
        (db.locations.filter (fun l =>
          location_ids.any (fun j => jsonEqInt j l.location_id) &&
          l.company_id == company_id && !l.disabled && !l.is_deleted)).map
          (fun l => Json.num l.location_id)
      else location_ids
    location_ids.dedup

/-! ## Fan-out targeter (notification/crud.py, notification/utils.py) -/

/-- The joined `(user_id, access_data)` rows of the query at
notification/crud.py lines 35-49: active location grants inner-joined with
the active users of the company. -/
def locationAccessEntries (db : DB) (company_id : Int) :
    List (Int × AccessData) :=
  (db.access_controls.filter (fun a =>
    a.access_type == "location" && !a.disabled && !a.is_deleted)).flatMap
    (fun a => (db.users.filter (fun u =>
      u.id == a.user_id && u.company_id == company_id &&
      !u.disabled && !u.is_deleted)).map
      (fun _u => (a.user_id, a.access_data)))

/-- Python `location_id in access_ids`: list membership compares elements
with `==`; dict membership tests keys (JSON object keys are strings, so an
integer never matches); strings and scalars raise `TypeError` (`none`). -/
def pyIntMem (i : Int) : Json → Option Bool
  | .arr l => some (l.any (fun j => jsonEqInt j i))
  | .obj _ => some false
  | _ => none

/-- One iteration of the recipient loop (notification/crud.py lines 53-66):
NULL `access_data` grants every location; otherwise the raw parsed
`access_ids` is tested for `location_id`, with `JSONDecodeError`,
`AttributeError` and `TypeError` all skipping the row. -/
def fanStep (location_id : Int) (acc : List Int) (e : Int × AccessData) :
    List Int :=
  match e.2 with
  | .sqlNull => acc ++ [e.1]
  | .emptyStr => acc
  | .badJson => acc
  | .parsed data =>
    let access_ids : Json := match data with
      | .obj fields => (jlookup fields "access_ids").getD (.arr [])
      | _ => .arr []
    match pyIntMem location_id access_ids with
    | some true => acc ++ [e.1]
    | some false => acc
    | none => acc

/-- `get_users_with_location_access` (notification/crud.py lines 12-68). -/
def get_users_with_location_access (db : DB) (company_id location_id : Int) :
    List Int :=
  let access_entries := locationAccessEntries db company_id
  let user_ids := access_entries.foldl (fanStep location_id) []
  user_ids.dedup

/-- `create_notification` (notification/crud.py lines 71-121): inserts one
row, with the fresh auto-increment id. -/
def create_notification (db : DB) (user_id company_id location_id : Option Int)
    (notification_type title message priority : String)
    (expires_at : Option Int) : MstNotification × DB :=
  let notification : MstNotification :=
    { notification_id := db.next_notification_id, user_id, company_id,
      location_id, notification_type, title, message, priority, expires_at }
  (notification,
   { db with notifications := db.notifications ++ [notification],
             next_notification_id := db.next_notification_id + 1 })

/-- `create_notification_tracker` (notification/crud.py lines 124-150).
The pure store has no integrity errors; the unique-constraint failure the
caller defends against cannot arise for a freshly inserted notification id. -/
def create_notification_tracker (db : DB) (notification_id user_id : Int) :
    TrnNotificationTracker × DB :=
  let tracker : TrnNotificationTracker :=
    { notification_id, user_id, is_read := false, read_at := none }
  (tracker, { db with trackers := db.trackers ++ [tracker] })

/-- The IST offset `timedelta(hours=5, minutes=30)` in minutes. -/
def istOffsetMinutes : Int := 330

/-- The timestamp fragment of the alert message.  The source pretty-prints
timestamps matching `%Y-%m-%d %H:%M:%S` and falls back to `f"at ..."`;
the pretty-printed branch is presentational and elided here. -/
def formatDetectionTime (t : String) : String := s!"at {t}"

/-- One iteration of the tracker-creation loop (notification/utils.py
lines 139-152); in the pure store the insert always succeeds, so the
`except`/log/skip path is unreachable. -/
def trackerStep (notification_id : Int) (st : Nat × DB) (uid : Int) :
    Nat × DB :=
  let (_, db') := create_notification_tracker st.2 notification_id uid
  (st.1 + 1, db')

/-- `send_watchlist_alert` (notification/utils.py lines 11-166):
the fan-out for one detection event.  Time is in minutes
(`expires_at = utcnow + 24h`).  Returns the created-tracker count and the
updated store. -/
def send_watchlist_alert (db : DB) (company_id location_id vehicle_id : Int)
    (plate_number : String) (is_blacklisted is_whitelisted : Bool)
    (checkpoint_name timestamp : Option String) (now_utc : Int) : Nat × DB :=
  let _ := vehicle_id  -- only carried into context_data, which is elided
  let user_ids := get_users_with_location_access db company_id location_id
  if user_ids.isEmpty then (0, db)
  else if !is_blacklisted && !is_whitelisted then (0, db)
  else
    -- if is_blacklisted: high / elif is_whitelisted: medium
    let notification_type := "watchlist_alert"
    let priority := if is_blacklisted then "high" else "medium"
    let status_emoji := if is_blacklisted then "🚨" else "✅"
    let status_text := if is_blacklisted then "Blacklisted" else "Whitelisted"
    let action_text := if is_blacklisted then "Please take immediate action"
      else "Authorized vehicle entry"
    let title := s!"{status_emoji} {status_text} Vehicle Alert"
    let message_parts := [s!"{status_text} vehicle {plate_number} has been detected"]
      ++ (match checkpoint_name with
          | some c => if c.isEmpty then [] else [s!"at {c}"]
          | none => [])
      ++ (match timestamp with
          | some t => if t.isEmpty then [] else [formatDetectionTime t]
          | none => [])
    let message := String.intercalate " " message_parts ++ s!". {action_text}."
    let expires_at := now_utc + 24 * 60
    let (notification, db1) := create_notification db none (some company_id)
      (some location_id) notification_type title message priority (some expires_at)
    let (notification_count, db2) := user_ids.foldl
      (trackerStep notification.notification_id) ((0 : Nat), db1)
    (notification_count, db2)

/-! ## Read-state machine (notification/crud.py) -/

/-- Replace the first element satisfying `p` by its image under `f`
(SQLAlchemy `.first()` followed by an in-place attribute update). -/
def updateFirst (p : α → Bool) (f : α → α) : List α → List α
  | [] => []
  | a :: as => if p a then f a :: as else a :: updateFirst p f as

/-- One iteration of the mark-as-read loop (notification/crud.py
lines 249-273): an existing unread tracker flips to read, an existing read
tracker is untouched, a missing tracker is created directly in the read
state. -/
def markStep (user_id current_time_ist : Int)
    (st : Nat × List TrnNotificationTracker) (nid : Int) :
    Nat × List TrnNotificationTracker :=
  let (count, trackers) := st
  match trackers.find? (fun t =>
      t.notification_id == nid && t.user_id == user_id) with
  | some tracker =>
    if !tracker.is_read then
      (count + 1,
       updateFirst (fun t => t.notification_id == nid && t.user_id == user_id)
         (fun t => { t with is_read := true,
                            read_at := some current_time_ist }) trackers)
    else (count, trackers)
  | none =>
    (count + 1, trackers ++ [{ notification_id := nid, user_id := user_id,
                               is_read := true,
                               read_at := some current_time_ist }])

/-- `mark_notifications_as_read` (notification/crud.py lines 229-276).
The per-iteration query sees rows added by earlier iterations (session
autoflush), so the fold threads the tracker list through. -/
def mark_notifications_as_read (db : DB) (notification_ids : List Int)
    (user_id : Int) (now_utc : Int) : Nat × DB :=
  let current_time_ist := now_utc + istOffsetMinutes
  let (count, trackers) := notification_ids.foldl
    (markStep user_id current_time_ist) ((0 : Nat), db.trackers)
  (count, { db with trackers := trackers })

/-! ## Hierarchy composer (auth/routes.py `get_user_access_control`)

The composed view keeps the identifiers and ordering-relevant fields of the
response; presentational columns (names, descriptions, addresses, hardware
details) are elided. -/

/-- The four CRUD-permission bits of a grant row. -/
structure Permissions where
  can_view : Bool
  can_create : Bool
  can_update : Bool
  can_delete : Bool
deriving DecidableEq

/-- One component entry of the composed view; `none` permissions model the
`{}` default of `component_permission_map.get(..., \x7b\x7d)`. -/
structure ComponentView where
  component_id : Int
  permissions : Option Permissions
deriving DecidableEq

/-- One tab entry of the composed view. -/
structure TabView where
  tab_id : Int
  display_order : Int
  components : List ComponentView
deriving DecidableEq

/-- One checkpoint entry of the composed view. -/
structure CheckpointView where
  checkpoint_id : Int
  sequence_order : Int
  cameras : List Int
deriving DecidableEq

/-- One location entry of the composed view. -/
structure LocationView where
  location_id : Int
  compute_boxes : List Int
  checkpoints : List CheckpointView
deriving DecidableEq

/-- The `access_control` part of the route response. -/
structure AccessView where
  tabs : List TabView
  locations : List LocationView
deriving DecidableEq

/-- The route-local `get_access_ids` helper (auth/routes.py lines 109-118):
falsy `access_data` (NULL or the empty string) signals ALL access (`none`);
a parse failure or non-dict payload yields the `[]` default; otherwise the
raw `access_ids` value is returned. -/
def route_get_access_ids (cell : AccessData) : Option Json :=
  match cell with
  | .sqlNull => none
  | .emptyStr => none
  | .badJson => some (.arr [])
  | .parsed j =>
    match j with
    | .obj fields => some ((jlookup fields "access_ids").getD (.arr []))
    | _ => some (.arr [])

/-- The has-all/extend scan the route runs per access class
(e.g. auth/routes.py lines 126-133): outer `none` is an uncaught
`TypeError` in `list.extend`; `some none` is the wildcard break (ids
gathered before the break are dead in the source); `some (some ids)` is the
collected id list. -/
def scanRouteEntries : List TrnAccessControl → Option (Option (List Json))
  | [] => some (some [])
  | e :: rest =>
    match route_get_access_ids e.access_data with
    | none => some none
    | some v =>
      match pyIterElems v with
      | none => none
      | some elems =>
        match scanRouteEntries rest with
        | none => none
        | some none => some none
        | some (some ids) => some (some (elems ++ ids))

/-- The component scan (auth/routes.py lines 152-165) also records, per
collected id, the permission bits of the grant row that contributed it
(later assignments overwrite earlier ones). -/
def scanComponentEntries : List TrnAccessControl →
    Option (Option (List Json × List (Json × Permissions)))
  | [] => some (some ([], []))
  | e :: rest =>
    match route_get_access_ids e.access_data with
    | none => some none
    | some v =>
      match pyIterElems v with
      | none => none
      | some elems =>
        let perms : Permissions :=
          { can_view := e.can_view, can_create := e.can_create,
            can_update := e.can_update, can_delete := e.can_delete }
        match scanComponentEntries rest with
        | none => none
        | some none => some none
        | some (some (ids, pmap)) =>
          some (some (elems ++ ids, elems.map (fun j => (j, perms)) ++ pmap))

/-- `component_permission_map.get(component_id, \x7b\x7d)`: the last
assignment whose key compares `==` to the integer id wins. -/
def pmapLookup (pmap : List (Json × Permissions)) (cid : Int) :
    Option Permissions :=
  (pmap.reverse.find? (fun e => jsonEqInt e.1 cid)).map (·.2)

/-- Stable insertion into a list sorted by `key` (keeps existing elements
with an equal key in front). -/
def insertSortedBy (key : α → Int) (a : α) : List α → List α
  | [] => [a]
  | b :: bs => if key b < key a then b :: insertSortedBy key a bs
               else a :: b :: bs

/-- `ORDER BY key`: a stable sort of the row list. -/
def sortByKey (key : α → Int) (l : List α) : List α :=
  l.foldr (insertSortedBy key) []

/-- `get_user_access_control` (auth/routes.py lines 78-349), from the
access-entry query onward.  `none` models an HTTP error response (the 404
for a missing user, or an uncaught `TypeError` while extending an id
list).  Tab queries carry `ORDER BY display_order`; the component,
location and checkpoint queries have no ORDER BY and keep store order. -/
def get_user_access_control (db : DB) (user_id : Int) : Option AccessView :=
  match db.users.find? (fun u => u.id == user_id) with
  | none => none
  | some _user =>
    let access_entries : List TrnAccessControl := db.access_controls.filter (fun a =>
      a.user_id == user_id && !a.disabled && !a.is_deleted)
    let tab_accesses := access_entries.filter (fun a => a.access_type == "tab")
    let component_accesses := access_entries.filter (fun a =>
      a.access_type == "component")
    let location_accesses := access_entries.filter (fun a =>
      a.access_type == "location")
    let checkpoint_accesses := access_entries.filter (fun a =>
      a.access_type == "checkpoint")
    match scanRouteEntries tab_accesses with
    | none => none
    | some tabScan =>
      let accessible_tabs : List MstTab := match tabScan with
        | none => sortByKey (fun t : MstTab => t.display_order)
            (db.tabs.filter (fun t => !t.disabled && !t.is_deleted))
        | some tab_ids_list => sortByKey (fun t : MstTab => t.display_order)
            (db.tabs.filter (fun t =>
              tab_ids_list.any (fun j => jsonEqInt j t.tab_id) &&
              !t.disabled && !t.is_deleted))
      match scanComponentEntries component_accesses with
      | none => none
      | some compScan =>
        let accessible_components : List MstComponent := match compScan with
          | none => db.components.filter (fun c => !c.disabled && !c.is_deleted)
          | some s => db.components.filter (fun c =>
              s.1.any (fun j => jsonEqInt j c.component_id) &&
              !c.disabled && !c.is_deleted)
        let component_permission_map : List (Json × Permissions) :=
          match compScan with
          | none => accessible_components.map (fun c =>
              (Json.num c.component_id, ⟨true, true, true, true⟩))
          | some s => s.2
        let tabs : List TabView := accessible_tabs.map (fun tab =>
          { tab_id := tab.tab_id, display_order := tab.display_order,
            components :=
              (accessible_components.filter (fun c => c.tab_id == tab.tab_id)).map
                (fun c => { component_id := c.component_id,
                            permissions :=
                              pmapLookup component_permission_map c.component_id }) })
        match scanRouteEntries location_accesses with
        | none => none
        | some locScan =>
          let accessible_locations : List MstLocation := match locScan with
            | none => db.locations.filter (fun l => !l.disabled && !l.is_deleted)
            | some location_ids_list => db.locations.filter (fun l =>
                location_ids_list.any (fun j => jsonEqInt j l.location_id) &&
                !l.disabled && !l.is_deleted)
          match scanRouteEntries checkpoint_accesses with
          | none => none
          | some cpScan =>
            let accessible_checkpoints : List MstCheckpoint := match cpScan with
              | none => db.checkpoints.filter (fun c =>
                  !c.disabled && !c.is_deleted)
              | some checkpoint_ids_list =>
                if checkpoint_ids_list.isEmpty then []
                else db.checkpoints.filter (fun c =>
                  checkpoint_ids_list.any (fun j => jsonEqInt j c.checkpoint_id) &&
                  !c.disabled && !c.is_deleted)
            let accessible_checkpoint_ids : List Int :=
              accessible_checkpoints.map (fun c => c.checkpoint_id)
            let cameras_for_checkpoints : List MstCamera :=
              if accessible_checkpoint_ids.isEmpty then []
              else db.cameras.filter (fun cam =>
                (match cam.checkpoint_id with
                 | some cid => accessible_checkpoint_ids.contains cid
                 | none => false) && !cam.disabled && !cam.is_deleted)
            let accessible_location_ids : List Int :=
              accessible_locations.map (fun l => l.location_id)
            let compute_boxes_for_locations : List MstComputeBox :=
              if accessible_location_ids.isEmpty then []
              else db.compute_boxes.filter (fun b =>
                accessible_location_ids.contains b.location_id &&
                !b.disabled && !b.is_deleted)
            let locations : List LocationView := accessible_locations.map (fun loc =>
              { location_id := loc.location_id,
                compute_boxes :=
                  (compute_boxes_for_locations.filter (fun b =>
                    b.location_id == loc.location_id)).map (fun b => b.box_id),
                checkpoints :=
                  (accessible_checkpoints.filter (fun cp =>
                    cp.location_id == loc.location_id)).map (fun cp =>
                    { checkpoint_id := cp.checkpoint_id,
                      sequence_order := cp.sequence_order,
                      cameras :=
                        (cameras_for_checkpoints.filter (fun cam =>
                          cam.checkpoint_id == some cp.checkpoint_id)).map
                          (fun cam => cam.camera_id) }) })
            some { tabs := tabs, locations := locations }

/-! ## Helper lemmas -/

/-- With an active NULL grant present, expansion takes the wildcard branch. -/
lemma assigned_wildcard_eq (db : DB) (uid cid : Int) (role : String)
    (h : ∃ g ∈ activeLocationGrants db uid, g.access_data = .sqlNull) :
    get_user_assigned_locations db uid cid role =
      (if role != "creator" then
        (db.locations.filter locationActive).filter
          (fun l => l.company_id == cid)
       else db.locations.filter locationActive).map
        (fun l => Json.num l.location_id) := by
  obtain ⟨g, hg, hgd⟩ := h
  have hne : (activeLocationGrants db uid).isEmpty = false := by
    cases hl : activeLocationGrants db uid with
    | nil => rw [hl] at hg; cases hg
    | cons a l => simp
  have hany : (activeLocationGrants db uid).any
      (fun a => a.access_data == .sqlNull) = true :=
    List.any_eq_true.mpr ⟨g, hg, by simp [hgd]⟩
  unfold get_user_assigned_locations
  simp only [hne, hany, Bool.false_eq_true, if_false, if_true]

/-- Membership in the wildcard expansion: exactly the active locations,
company-bounded for non-creator roles. -/
lemma mem_assigned_wildcard (db : DB) (uid cid : Int) (role : String)
    (h : ∃ g ∈ activeLocationGrants db uid, g.access_data = .sqlNull)
    (j : Json) :
    j ∈ get_user_assigned_locations db uid cid role ↔
      ∃ l ∈ db.locations, locationActive l = true ∧
        (role ≠ "creator" → l.company_id = cid) ∧
        j = Json.num l.location_id := by
  rw [assigned_wildcard_eq db uid cid role h]
  by_cases hr : role = "creator"
  · subst hr
    simp only [bne_self_eq_false, Bool.false_eq_true, if_false,
      List.mem_map, List.mem_filter]
    constructor
    · rintro ⟨l, ⟨hl, ha⟩, rfl⟩
      exact ⟨l, hl, ha, fun hcon => absurd rfl hcon, rfl⟩
    · rintro ⟨l, hl, ha, _, rfl⟩
      exact ⟨l, ⟨hl, ha⟩, rfl⟩
  · have hb : (role != "creator") = true := bne_iff_ne.mpr hr
    simp only [hb, if_true, List.mem_map, List.mem_filter]
    constructor
    · rintro ⟨l, ⟨⟨hl, ha⟩, hc⟩, rfl⟩
      exact ⟨l, hl, ha, fun _ => by simpa using hc, rfl⟩
    · rintro ⟨l, hl, ha, hc, rfl⟩
      exact ⟨l, ⟨⟨hl, ha⟩, by simpa using hc hr⟩, rfl⟩

/-! ## Claim C3 -/

/-- Example store for the wildcard-expansion claims: user 7 holds a NULL
location grant; locations 10 (company 1, active), 20 (company 2, active)
and 11 (company 1, disabled). -/
def exDbC3 : DB := {
  locations := [{ location_id := 10, company_id := 1 },
                { location_id := 20, company_id := 2 },
                { location_id := 11, company_id := 1, disabled := true }],
  access_controls := [
    { user_id := 7, access_type := "location", access_data := .sqlNull }] }

/-- C3: for every user with an active Wildcard (NULL `access_data`) location
grant, expansion returns exactly the active locations whose company matches
the requester for non-creator roles, and all active locations, unbounded by
company, for the creator role. -/
theorem C3_wildcard_expansion (db : DB) (uid cid : Int) (role : String)
    (h : ∃ g ∈ activeLocationGrants db uid, g.access_data = .sqlNull)
    (j : Json) :
    j ∈ get_user_assigned_locations db uid cid role ↔
      ∃ l ∈ db.locations, locationActive l = true ∧
        (role ≠ "creator" → l.company_id = cid) ∧
        j = Json.num l.location_id :=
  mem_assigned_wildcard db uid cid role h j

/-- Witness: C3 instantiated at the example store, a non-creator role and
the id of the active same-company location. -/
theorem C3_wildcard_expansion_witness :
    Json.num 10 ∈ get_user_assigned_locations exDbC3 7 1 "admin" ↔
      ∃ l ∈ exDbC3.locations, locationActive l = true ∧
        ("admin" ≠ "creator" → l.company_id = 1) ∧
        Json.num 10 = Json.num l.location_id :=
  C3_wildcard_expansion exDbC3 7 1 "admin" (by decide) (Json.num 10)

/-! ## Claim C4 -/

/-- Remove the user's active non-NULL (explicit) location grants, leaving
wildcard rows and everything else untouched. -/
def dropExplicitLocationGrants (db : DB) (uid : Int) : DB :=
  { db with access_controls := db.access_controls.filter (fun a =>
      !(a.user_id == uid && a.access_type == "location" &&
        !a.disabled && !a.is_deleted && a.access_data != .sqlNull)) }

/-- Example store for C4: user 7 holds both an explicit grant over
location 5 and a NULL wildcard grant (the §9 data anomaly). -/
def exDbC4 : DB := {
  locations := [{ location_id := 10, company_id := 1 },
                { location_id := 20, company_id := 2 },
                { location_id := 5, company_id := 1 }],
  access_controls := [
    { user_id := 7, access_type := "location",
      access_data := .parsed (.obj [("access_ids", .arr [.num 5])]) },
    { user_id := 7, access_type := "location", access_data := .sqlNull }] }

/-- C4: when an active Wildcard grant coexists with explicit grants for the
same user and class, expansion returns the Wildcard-derived set — it is
unchanged if the explicit grants are deleted, and its members are exactly
the active (company-bounded for non-creators) locations, never a union
with the explicit IDs. -/
theorem C4_wildcard_short_circuit (db : DB) (uid cid : Int) (role : String)
    (h : ∃ g ∈ activeLocationGrants db uid, g.access_data = .sqlNull) :
    get_user_assigned_locations db uid cid role =
      get_user_assigned_locations (dropExplicitLocationGrants db uid)
        uid cid role ∧
    (∀ j, j ∈ get_user_assigned_locations db uid cid role ↔
      ∃ l ∈ db.locations, locationActive l = true ∧
        (role ≠ "creator" → l.company_id = cid) ∧
        j = Json.num l.location_id) := by
  have h' : ∃ g ∈ activeLocationGrants (dropExplicitLocationGrants db uid) uid,
      g.access_data = AccessData.sqlNull := by
    obtain ⟨g, hg, hgd⟩ := h
    refine ⟨g, ?_, hgd⟩
    unfold activeLocationGrants at hg ⊢
    unfold dropExplicitLocationGrants
    simp only [List.mem_filter] at hg ⊢
    exact ⟨⟨hg.1, by simp [hgd]⟩, hg.2⟩
  constructor
  · rw [assigned_wildcard_eq db uid cid role h,
        assigned_wildcard_eq _ uid cid role h']
    rfl
  · exact fun j => mem_assigned_wildcard db uid cid role h j

/-- Witness: C4 instantiated at the anomalous store; the explicit grant
over location 5 is ignored. -/
theorem C4_wildcard_short_circuit_witness :
    get_user_assigned_locations exDbC4 7 1 "admin" =
      get_user_assigned_locations (dropExplicitLocationGrants exDbC4 7)
        7 1 "admin" ∧
    (∀ j, j ∈ get_user_assigned_locations exDbC4 7 1 "admin" ↔
      ∃ l ∈ exDbC4.locations, locationActive l = true ∧
        ("admin" ≠ "creator" → l.company_id = 1) ∧
        j = Json.num l.location_id) :=
  C4_wildcard_short_circuit exDbC4 7 1 "admin" (by decide)

/-! ## Claim C1 -/

/-- A grant is a well-formed `ExplicitSet`: its payload parses to a dict
whose `access_ids` is a JSON array of integers. -/
def isExplicitIntGrant (g : TrnAccessControl) : Bool :=
  match g.access_data with
  | .parsed (.obj fields) =>
    match jlookup fields "access_ids" with
    | some (.arr l) => l.all (fun j => match j with | .num _ => true | _ => false)
    | _ => false
  | _ => false

/-- The integer ids of a well-formed `ExplicitSet` grant. -/
def explicitIntIds (g : TrnAccessControl) : List Int :=
  match g.access_data with
  | .parsed (.obj fields) =>
    match jlookup fields "access_ids" with
    | some (.arr l) =>
      l.filterMap (fun j => match j with | .num n => some n | _ => none)
    | _ => []
  | _ => []

/-- All integer location ids granted to the user across their active
explicit location grants. -/
def grantedLocationIds (db : DB) (uid : Int) : List Int :=
  (activeLocationGrants db uid).flatMap explicitIntIds

/-- Projecting the integers out of an all-integer JSON array is lossless. -/
lemma filterMap_num_of_all_num (l : List Json)
    (h : l.all (fun j => match j with | .num _ => true | _ => false) = true) :
    (l.filterMap (fun j => match j with
      | .num n => some n | _ => none)).map Json.num = l := by
  induction l with
  | nil => rfl
  | cons x xs ih =>
    simp only [List.all_cons, Bool.and_eq_true] at h
    cases x with
    | num n => simp [List.filterMap_cons, ih h.2]
    | null => simp at h
    | bool b => simp at h
    | str s => simp at h
    | arr a => simp at h
    | obj o => simp at h

/-- On a well-formed `ExplicitSet` grant, the explicit branch contributes
exactly the granted integers. -/
lemma rowExplicitIds_of_intGrant (g : TrnAccessControl)
    (h : isExplicitIntGrant g = true) :
    rowExplicitIds g.access_data = (explicitIntIds g).map Json.num := by
  unfold isExplicitIntGrant at h
  cases hd : g.access_data with
  | sqlNull => rw [hd] at h; simp at h
  | emptyStr => rw [hd] at h; simp at h
  | badJson => rw [hd] at h; simp at h
  | parsed j =>
    rw [hd] at h
    cases j with
    | null => simp at h
    | bool b => simp at h
    | num n => simp at h
    | str s => simp at h
    | arr a => simp at h
    | obj fields =>
      replace h : (match jlookup fields "access_ids" with
        | some (Json.arr l) =>
          l.all (fun j => match j with | Json.num _ => true | _ => false)
        | _ => false) = true := h
      cases hl : jlookup fields "access_ids" with
      | none => rw [hl] at h; simp at h
      | some v =>
        rw [hl] at h
        cases v with
        | null => simp at h
        | bool b => simp at h
        | num n => simp at h
        | str s => simp at h
        | obj o => simp at h
        | arr l =>
          simp only [rowExplicitIds, explicitIntIds, getAccessIdsVal, hd, hl,
            Option.getD_some, pyIterElems]
          exact (filterMap_num_of_all_num l h).symm

/-- `IN`-matching an integer column against JSON-rendered integers is list
membership. -/
lemma any_jsonEqInt_map_num (G : List Int) (i : Int) :
    ((G.map Json.num).any (fun j => jsonEqInt j i) = true) ↔ i ∈ G := by
  constructor
  · intro h
    obtain ⟨x, hx, he⟩ := List.any_eq_true.mp h
    obtain ⟨a, ha, rfl⟩ := List.mem_map.mp hx
    have : a = i := by simpa [jsonEqInt] using he
    exact this ▸ ha
  · intro hi
    exact List.any_eq_true.mpr
      ⟨Json.num i, List.mem_map_of_mem Json.num hi, by simp [jsonEqInt]⟩

/-- With active grants present and none of them NULL, expansion takes the
explicit branch. -/
lemma assigned_explicit_eq (db : DB) (uid cid : Int) (role : String)
    (hne : (activeLocationGrants db uid).isEmpty = false)
    (hany : (activeLocationGrants db uid).any
      (fun a => a.access_data == .sqlNull) = false) :
    get_user_assigned_locations db uid cid role =
      (if !((activeLocationGrants db uid).foldl
            (fun acc a => acc ++ rowExplicitIds a.access_data) []).isEmpty
          && role != "creator" then
        (db.locations.filter (fun l =>
          ((activeLocationGrants db uid).foldl
            (fun acc a => acc ++ rowExplicitIds a.access_data) []).any
              (fun j => jsonEqInt j l.location_id) &&
          l.company_id == cid && !l.disabled && !l.is_deleted)).map
          (fun l => Json.num l.location_id)
       else (activeLocationGrants db uid).foldl
            (fun acc a => acc ++ rowExplicitIds a.access_data) []).dedup := by
  unfold get_user_assigned_locations
  simp only [hne, hany, Bool.false_eq_true, if_false]

/-- The explicit-branch fold over well-formed grants collects the granted
integers rendered as JSON numbers. -/
lemma collected_ids_aux (gs : List TrnAccessControl) :
    ∀ init : List Json, (∀ g ∈ gs, isExplicitIntGrant g = true) →
      gs.foldl (fun acc a => acc ++ rowExplicitIds a.access_data) init =
        init ++ (gs.flatMap explicitIntIds).map Json.num := by
  induction gs with
  | nil => intro init _; simp
  | cons g gs ih =>
    intro init hexp
    simp only [List.foldl_cons, List.flatMap_cons, List.map_append]
    rw [ih _ (fun a ha => hexp a (List.mem_cons_of_mem g ha)),
      rowExplicitIds_of_intGrant g (hexp g (List.mem_cons_self g gs)),
      List.append_assoc]

/-- Under well-formed explicit grants, the collected id list is the granted
integer list rendered as JSON numbers. -/
lemma collected_ids_eq_granted (db : DB) (uid : Int)
    (hexp : ∀ g ∈ activeLocationGrants db uid, isExplicitIntGrant g = true) :
    (activeLocationGrants db uid).foldl
      (fun acc a => acc ++ rowExplicitIds a.access_data) [] =
    (grantedLocationIds db uid).map Json.num := by
  rw [grantedLocationIds]
  simpa using collected_ids_aux (activeLocationGrants db uid) [] hexp

/-- C1 (amended): for a user all of whose active location grants are
well-formed `ExplicitSet` grants, expansion for non-creator roles returns
exactly the granted ids intersected with the active locations of the
requester company; for the creator role it returns exactly the granted ids
verbatim (deduplicated), with no intersection against the location
catalog. -/
theorem C1_explicit_expansion (db : DB) (uid cid : Int) (role : String)
    (hne : activeLocationGrants db uid ≠ [])
    (hexp : ∀ g ∈ activeLocationGrants db uid, isExplicitIntGrant g = true) :
    (role ≠ "creator" →
      ∀ j, j ∈ get_user_assigned_locations db uid cid role ↔
        ∃ l ∈ db.locations, l.location_id ∈ grantedLocationIds db uid ∧
          locationActive l = true ∧ l.company_id = cid ∧
          j = Json.num l.location_id) ∧
    (role = "creator" →
      ∀ j, j ∈ get_user_assigned_locations db uid cid role ↔
        ∃ n ∈ grantedLocationIds db uid, j = Json.num n) := by
  have hne' : (activeLocationGrants db uid).isEmpty = false := by
    cases hl : activeLocationGrants db uid with
    | nil => exact absurd hl hne
    | cons a l => simp
  have hany : (activeLocationGrants db uid).any
      (fun a => a.access_data == .sqlNull) = false := by
    rw [List.any_eq_false]
    intro g hg
    have hx := hexp g hg
    cases hd : g.access_data with
    | sqlNull => rw [isExplicitIntGrant, hd] at hx; simp at hx
    | emptyStr => simp [hd]
    | badJson => simp [hd]
    | parsed j => simp [hd]
  rw [assigned_explicit_eq db uid cid role hne' hany,
    collected_ids_eq_granted db uid hexp]
  constructor
  · intro hr j
    have hb : (role != "creator") = true := bne_iff_ne.mpr hr
    by_cases hg : grantedLocationIds db uid = []
    · simp [hg]
    · have hmap : ((grantedLocationIds db uid).map Json.num).isEmpty = false := by
        cases hG : grantedLocationIds db uid with
        | nil => exact absurd hG hg
        | cons a as => simp
      simp only [hmap, Bool.not_false, hb, Bool.and_self, if_true,
        List.mem_dedup, List.mem_map, List.mem_filter]
      constructor
      · rintro ⟨l, ⟨hl, hP⟩, rfl⟩
        simp only [Bool.and_eq_true] at hP
        obtain ⟨⟨⟨hany', hcid⟩, hdis⟩, hdel⟩ := hP
        refine ⟨l, hl, (any_jsonEqInt_map_num _ _).mp hany', ?_,
          by simpa using hcid, rfl⟩
        simp [locationActive, hdis, hdel]
      · rintro ⟨l, hl, hmem, hact, hcid, rfl⟩
        refine ⟨l, ⟨hl, ?_⟩, rfl⟩
        have hact' : (!l.disabled) = true ∧ (!l.is_deleted) = true := by
          simpa [locationActive, Bool.and_eq_true] using hact
        simp only [Bool.and_eq_true]
        exact ⟨⟨⟨(any_jsonEqInt_map_num _ _).mpr hmem, by simpa using hcid⟩,
          hact'.1⟩, hact'.2⟩
  · intro hr j
    have hb : (role != "creator") = false := by
      rw [hr]; exact bne_self_eq_false _
    simp only [hb, Bool.and_false, Bool.false_eq_true, if_false,
      List.mem_dedup, List.mem_map]
    exact ⟨fun ⟨a, ha, e⟩ => ⟨a, ha, e.symm⟩,
      fun ⟨a, ha, e⟩ => ⟨a, ha, e.symm⟩⟩

/-- Example store for C1: user 7 has `ExplicitSet({10, 11})`; location 10 is
active, location 11 disabled, both in company 1. -/
def exDbC1 : DB := {
  locations := [{ location_id := 10, company_id := 1 },
                { location_id := 11, company_id := 1, disabled := true }],
  access_controls := [
    { user_id := 7, access_type := "location",
      access_data := .parsed (.obj [("access_ids", .arr [.num 10, .num 11])]) }] }

/-- C1 counterexample: for the creator role the code skips the
active-location intersection, so the disabled location 11 is still
returned, contradicting `ExplicitSet ∩ active`. -/
theorem C1_counterexample :
    Json.num 11 ∈ get_user_assigned_locations exDbC1 7 1 "creator" ∧
    ∀ l ∈ exDbC1.locations, l.location_id = 11 → l.disabled = true := by
  decide

/-- Witness: the amended C1 at the example store for a non-creator role. -/
theorem C1_explicit_expansion_witness :
    Json.num 10 ∈ get_user_assigned_locations exDbC1 7 1 "admin" ↔
      ∃ l ∈ exDbC1.locations, l.location_id ∈ grantedLocationIds exDbC1 7 ∧
        locationActive l = true ∧ l.company_id = 1 ∧
        Json.num 10 = Json.num l.location_id :=
  (C1_explicit_expansion exDbC1 7 1 "admin" (by decide) (by decide)).1
    (by decide) (Json.num 10)

/-! ## Claim C2 -/

/-- Whether a grant payload grants `location_id` under the fan-out's raw
test: NULL grants everything; otherwise the parsed `access_ids` must be a
JSON array containing the id (no active-location or catalog check). -/
def grantCoversRaw (cell : AccessData) (location_id : Int) : Bool :=
  match cell with
  | .sqlNull => true
  | .emptyStr => false
  | .badJson => false
  | .parsed data =>
    match pyIntMem location_id (match data with
      | .obj fields => (jlookup fields "access_ids").getD (.arr [])
      | _ => .arr []) with
    | some true => true
    | _ => false

/-- One fan-out iteration appends the entry's user exactly when the raw
grant test passes. -/
lemma fanStep_eq (location_id : Int) (acc : List Int) (e : Int × AccessData) :
    fanStep location_id acc e =
      acc ++ (if grantCoversRaw e.2 location_id then [e.1] else []) := by
  rcases e with ⟨u, cell⟩
  cases cell with
  | sqlNull => simp [fanStep, grantCoversRaw]
  | emptyStr => simp [fanStep, grantCoversRaw]
  | badJson => simp [fanStep, grantCoversRaw]
  | parsed data =>
    cases hm : pyIntMem location_id (match data with
        | Json.obj fields => (jlookup fields "access_ids").getD (Json.arr [])
        | _ => Json.arr []) with
    | none => simp [fanStep, grantCoversRaw, hm]
    | some b => cases b <;> simp [fanStep, grantCoversRaw, hm]

/-- The fan-out fold collects exactly the covered entries' users. -/
lemma fan_collect (location_id : Int) :
    ∀ (entries : List (Int × AccessData)) (init : List Int),
      entries.foldl (fanStep location_id) init =
        init ++ entries.flatMap (fun e =>
          if grantCoversRaw e.2 location_id then [e.1] else []) := by
  intro entries
  induction entries with
  | nil => intro init; simp
  | cons e es ih =>
    intro init
    simp only [List.foldl_cons, List.flatMap_cons, fanStep_eq]
    rw [ih, List.append_assoc]

/-- The recipient predicate the fan-out actually implements: an active user
of the company holding an active location grant whose raw payload covers
the event's location — with no role restriction and no check that the
location itself is active. -/
def fanoutEligible (db : DB) (company_id location_id : Int)
    (u : MstUser) : Bool :=
  !u.disabled && !u.is_deleted && u.company_id == company_id &&
  db.access_controls.any (fun a => a.user_id == u.id &&
    a.access_type == "location" && !a.disabled && !a.is_deleted &&
    grantCoversRaw a.access_data location_id)

/-- Membership in the fan-out recipient list is `fanoutEligible`. -/
lemma mem_users_with_access (db : DB) (c l i : Int) :
    i ∈ get_users_with_location_access db c l ↔
      ∃ u ∈ db.users, fanoutEligible db c l u = true ∧ u.id = i := by
  simp only [get_users_with_location_access]
  rw [fan_collect, List.nil_append, List.mem_dedup, List.mem_flatMap]
  constructor
  · rintro ⟨e, he, hi⟩
    rw [locationAccessEntries, List.mem_flatMap] at he
    obtain ⟨a, ha', he'⟩ := he
    rw [List.mem_filter] at ha'
    obtain ⟨ha, hpa⟩ := ha'
    rw [List.mem_map] at he'
    obtain ⟨u, hu', hue⟩ := he'
    rw [List.mem_filter] at hu'
    obtain ⟨huu, hq⟩ := hu'
    subst hue
    simp only [Bool.and_eq_true, beq_iff_eq] at hpa hq
    by_cases hcov : grantCoversRaw a.access_data l = true
    · simp only [hcov, if_true, List.mem_singleton] at hi
      subst hi
      refine ⟨u, huu, ?_, hq.1.1.1⟩
      rw [fanoutEligible]
      simp only [Bool.and_eq_true, beq_iff_eq, List.any_eq_true]
      exact ⟨⟨⟨hq.1.2, hq.2⟩, hq.1.1.2⟩, a, ha,
        ⟨⟨⟨hq.1.1.1.symm, hpa.1.1⟩, hpa.1.2⟩, hpa.2⟩, hcov⟩
    · simp [hcov] at hi
  · rintro ⟨u, hu, helig, rfl⟩
    rw [fanoutEligible] at helig
    simp only [Bool.and_eq_true, beq_iff_eq, List.any_eq_true] at helig
    obtain ⟨⟨⟨hdis, hdel⟩, hcid⟩, a, ha, hconj⟩ := helig
    refine ⟨(a.user_id, a.access_data), ?_, ?_⟩
    · rw [locationAccessEntries, List.mem_flatMap]
      refine ⟨a, List.mem_filter.mpr ⟨ha, ?_⟩,
        List.mem_map.mpr ⟨u, List.mem_filter.mpr ⟨hu, ?_⟩, rfl⟩⟩
      · simp only [Bool.and_eq_true, beq_iff_eq]
        exact ⟨⟨hconj.1.1.1.2, hconj.1.1.2⟩, hconj.1.2⟩
      · simp only [Bool.and_eq_true, beq_iff_eq]
        exact ⟨⟨⟨hconj.1.1.1.1.symm, hcid⟩, hdis⟩, hdel⟩
    · simp [hconj.2, hconj.1.1.1.1]

/-- Two duplicate-free integer lists with the same members have the same
length. -/
lemma length_eq_of_nodup_mem_iff {l1 l2 : List Int} (h1 : l1.Nodup)
    (h2 : l2.Nodup) (h : ∀ i, i ∈ l1 ↔ i ∈ l2) : l1.length = l2.length := by
  rw [← List.toFinset_card_of_nodup h1, ← List.toFinset_card_of_nodup h2]
  congr 1
  ext i
  simpa using h i

/-- The recipient list is duplicate-free. -/
lemma nodup_users_with_access (db : DB) (c l : Int) :
    (get_users_with_location_access db c l).Nodup := by
  simp only [get_users_with_location_access]
  exact List.nodup_dedup _

/-- With unique user ids, the recipient count is the number of eligible
users. -/
lemma users_with_access_length (db : DB) (c l : Int)
    (hN : (db.users.map (fun u => u.id)).Nodup) :
    (get_users_with_location_access db c l).length =
      (db.users.filter (fun u => fanoutEligible db c l u)).length := by
  have hsub : ((db.users.filter (fun u => fanoutEligible db c l u)).map
      (fun u => u.id)).Nodup :=
    List.Nodup.sublist (List.Sublist.map _ (List.filter_sublist _)) hN
  have hlen := length_eq_of_nodup_mem_iff (nodup_users_with_access db c l)
    hsub (fun i => by
      rw [mem_users_with_access]
      simp only [List.mem_map, List.mem_filter]
      constructor
      · rintro ⟨u, hu, he, rfl⟩; exact ⟨u, ⟨hu, he⟩, rfl⟩
      · rintro ⟨u, ⟨hu, he⟩, rfl⟩; exact ⟨u, hu, he, rfl⟩)
  rw [hlen, List.length_map]

/-- The tracker-creation loop increments the count once per recipient. -/
lemma trackerStep_count (nid : Int) :
    ∀ (uids : List Int) (c : Nat) (d : DB),
      (uids.foldl (trackerStep nid) (c, d)).1 = c + uids.length := by
  intro uids
  induction uids with
  | nil => intro c d; simp
  | cons u us ih =>
    intro c d
    simp only [List.foldl_cons, trackerStep, create_notification_tracker]
    rw [ih]
    simp [List.length_cons]
    omega

/-- Example store for C2: the only user of company 1 is a creator with a
wildcard location grant. -/
def exDbC2 : DB := {
  locations := [{ location_id := 3, company_id := 1 }],
  users := [{ id := 5, company_id := 1, role := "creator" }],
  access_controls := [
    { user_id := 5, access_type := "location", access_data := .sqlNull }] }

/-- Second example store for the C2 counterexample: an admin whose only
granted location (3) is disabled, and a blacklist event at that location. -/
def exDbC2b : DB := {
  locations := [{ location_id := 3, company_id := 1, disabled := true }],
  users := [{ id := 6, company_id := 1, role := "admin" }],
  access_controls := [
    { user_id := 6, access_type := "location",
      access_data := .parsed (.obj [("access_ids", .arr [.num 3])]) }] }

/-- C2 counterexample: (i) the fan-out has no role filter, so a creator
receives a tracker row and is counted although the claim demands 0 for a
creator-only company; (ii) the fan-out tests the raw `access_ids` rather
than the expanded set, so a user whose expanded location set is empty
(their only granted location is disabled) is still counted. -/
theorem C2_counterexample :
    (∀ u ∈ exDbC2.users, u.role = "creator") ∧
    (send_watchlist_alert exDbC2 1 3 99 "KA01AB1234" true false
      none none 0).1 = 1 ∧
    (TrnNotificationTracker.mk 1 5 false none) ∈
      (send_watchlist_alert exDbC2 1 3 99 "KA01AB1234" true false
        none none 0).2.trackers ∧
    get_user_assigned_locations exDbC2b 6 1 "admin" = [] ∧
    (send_watchlist_alert exDbC2b 1 3 99 "KA01AB1234" true false
      none none 0).1 = 1 := by
  decide

/-- C2 (amended): for a blacklist or whitelist event, the fan-out's
recipient count equals the number of active users of the company — any
role, creators included — holding an active location grant whose raw
payload covers the event's location, with no intersection against the
active-location catalog. -/
theorem C2_fanout_count (db : DB) (c l vid : Int) (pn : String)
    (bl wl : Bool) (cn ts : Option String) (now : Int)
    (hN : (db.users.map (fun u => u.id)).Nodup)
    (hW : bl = true ∨ wl = true) :
    (send_watchlist_alert db c l vid pn bl wl cn ts now).1 =
      (db.users.filter (fun u => fanoutEligible db c l u)).length := by
  have hflag : (!bl && !wl) = false := by
    rcases hW with h | h <;> simp [h]
  rw [← users_with_access_length db c l hN]
  simp only [send_watchlist_alert, hflag, Bool.false_eq_true, if_false]
  by_cases he : (get_users_with_location_access db c l).isEmpty
  · have hnil : get_users_with_location_access db c l = [] :=
      List.isEmpty_iff.mp he
    simp [he, hnil]
  · have he' : (get_users_with_location_access db c l).isEmpty = false :=
      Bool.eq_false_iff.mpr he
    simp only [he', Bool.false_eq_true, if_false, create_notification]
    rw [trackerStep_count]
    simp

/-- Witness: the amended C2 at the creator-only store (count 1). -/
theorem C2_fanout_count_witness :
    (send_watchlist_alert exDbC2 1 3 99 "KA01AB1234" true false
      none none 0).1 =
      (exDbC2.users.filter (fun u => fanoutEligible exDbC2 1 3 u)).length :=
  C2_fanout_count exDbC2 1 3 99 "KA01AB1234" true false none none 0
    (by decide) (Or.inl rfl)

/-! ## Claim C5 -/

/-- C5: when the computed recipient set is empty the fan-out returns 0 and
leaves the store untouched — no notification row, no tracker rows, no
error. -/
theorem C5_empty_fanout_noop (db : DB) (c l vid : Int) (pn : String)
    (bl wl : Bool) (cn ts : Option String) (now : Int)
    (h : get_users_with_location_access db c l = []) :
    send_watchlist_alert db c l vid pn bl wl cn ts now = (0, db) := by
  simp [send_watchlist_alert, h]

/-- Example store for C5: a location with no users at all. -/
def exDbC5 : DB := {
  locations := [{ location_id := 3, company_id := 1 }] }

/-- Witness: C5 at a store with no users. -/
theorem C5_empty_fanout_noop_witness :
    send_watchlist_alert exDbC5 1 3 99 "KA01AB1234" true false
      none none 0 = (0, exDbC5) :=
  C5_empty_fanout_noop exDbC5 1 3 99 "KA01AB1234" true false
    none none 0 (by decide)

/-! ## Claim C9 -/

/-- C9: a detection event for a vehicle that is neither blacklisted nor
whitelisted returns 0 and changes nothing, even when the location has users
with access. -/
theorem C9_unlisted_vehicle_noop (db : DB) (c l vid : Int) (pn : String)
    (bl wl : Bool) (cn ts : Option String) (now : Int)
    (hb : bl = false) (hw : wl = false) :
    send_watchlist_alert db c l vid pn bl wl cn ts now = (0, db) := by
  subst hb hw
  simp only [send_watchlist_alert, Bool.not_false, Bool.and_self, if_true]
  split <;> rfl

/-- Witness: C9 at the creator-only store, whose location does have a user
with access. -/
theorem C9_unlisted_vehicle_noop_witness :
    get_users_with_location_access exDbC2 1 3 ≠ [] ∧
    send_watchlist_alert exDbC2 1 3 99 "KA01AB1234" false false
      none none 0 = (0, exDbC2) :=
  ⟨by decide, C9_unlisted_vehicle_noop exDbC2 1 3 99 "KA01AB1234"
    false false none none 0 rfl rfl⟩

/-! ## Read-state lemmas (for C6 and C10) -/

/-- The tracker rows of one `(notification, user)` pair. -/
def pairRows (trs : List TrnNotificationTracker) (n u : Int) :
    List TrnNotificationTracker :=
  trs.filter (fun t => t.notification_id == n && t.user_id == u)

/-- `.first()` is the head of the filtered rows. -/
lemma find?_eq_filter_head? {α : Type} (p : α → Bool) :
    ∀ l : List α, l.find? p = (l.filter p).head? := by
  intro l
  induction l with
  | nil => rfl
  | cons a as ih =>
    cases h : p a with
    | true =>
      rw [List.find?_cons_of_pos _ h, List.filter_cons_of_pos h]
      rfl
    | false =>
      rw [List.find?_cons_of_neg _ (by simp [h]),
        List.filter_cons_of_neg (by simp [h]), ih]

/-- A filtered list of length at most one with a known head is a
singleton. -/
lemma filter_singleton_of_head? {α : Type} {p : α → Bool} {l : List α}
    {a : α} (hh : (l.filter p).head? = some a)
    (hl : (l.filter p).length ≤ 1) : l.filter p = [a] := by
  cases hfl : l.filter p with
  | nil => rw [hfl] at hh; cases hh
  | cons x xs =>
    rw [hfl] at hh hl
    cases xs with
    | nil => cases hh; rfl
    | cons y ys => simp at hl

/-- Updating the first `p`-row rewrites the head of the `p`-filtered
rows. -/
lemma filter_updateFirst_self {α : Type} (p : α → Bool) (f : α → α)
    (hpf : ∀ a, p (f a) = p a) :
    ∀ l : List α, (updateFirst p f l).filter p =
      match l.filter p with
      | [] => []
      | a :: as => f a :: as := by
  intro l
  induction l with
  | nil => rfl
  | cons a as ih =>
    cases h : p a with
    | true => simp [updateFirst, h, List.filter_cons, hpf a]
    | false => simp [updateFirst, h, List.filter_cons, ih]

/-- Updating the first `p`-row leaves any filter disjoint from `p`
unchanged. -/
lemma filter_updateFirst_other {α : Type} (p q : α → Bool) (f : α → α)
    (hq : ∀ a, p a = true → q a = false ∧ q (f a) = false) :
    ∀ l : List α, (updateFirst p f l).filter q = l.filter q := by
  intro l
  induction l with
  | nil => rfl
  | cons a as ih =>
    cases h : p a with
    | true => simp [updateFirst, h, List.filter_cons, (hq a h).1, (hq a h).2]
    | false => simp [updateFirst, h, List.filter_cons, ih]

/-- Updating the first `p`-row maps the found row through `f`. -/
lemma find?_updateFirst {α : Type} (p : α → Bool) (f : α → α)
    (hpf : ∀ a, p (f a) = p a) :
    ∀ l : List α, (updateFirst p f l).find? p = (l.find? p).map f := by
  intro l
  induction l with
  | nil => rfl
  | cons a as ih =>
    cases h : p a with
    | true =>
      rw [updateFirst, if_pos h]
      rw [List.find?_cons_of_pos _ (show p (f a) = true by rw [hpf a]; exact h)]
      rw [List.find?_cons_of_pos _ h]
      rfl
    | false =>
      rw [updateFirst, if_neg (by simp [h])]
      rw [List.find?_cons_of_neg _ (by simp [h])]
      rw [List.find?_cons_of_neg _ (by simp [h])]
      exact ih

/-- A row other than the one `find?` returns survives `updateFirst`. -/
lemma mem_updateFirst_of_find?_ne {α : Type} (p : α → Bool) (f : α → α)
    (t : α) : ∀ l : List α, t ∈ l → l.find? p ≠ some t →
      t ∈ updateFirst p f l := by
  intro l
  induction l with
  | nil => intro h _; cases h
  | cons a as ih =>
    intro hmem hne
    cases h : p a with
    | true =>
      rw [List.find?_cons_of_pos _ h] at hne
      have hta : t ≠ a := fun he => hne (by rw [he])
      rcases List.mem_cons.mp hmem with rfl | hmm
      · exact absurd rfl hta
      · rw [updateFirst, if_pos h]
        exact List.mem_cons_of_mem _ hmm
    | false =>
      rw [List.find?_cons_of_neg _ (by simp [h])] at hne
      rw [updateFirst, if_neg (by simp [h])]
      rcases List.mem_cons.mp hmem with rfl | hmm
      · exact List.mem_cons_self _ _
      · exact List.mem_cons_of_mem _ (ih hmm hne)

/-- `any` is unchanged by `updateFirst` when `f` preserves the tested
predicate on `p`-rows. -/
lemma any_updateFirst {α : Type} (p q : α → Bool) (f : α → α)
    (hq : ∀ a, p a = true → q (f a) = q a) :
    ∀ l : List α, (updateFirst p f l).any q = l.any q := by
  intro l
  induction l with
  | nil => rfl
  | cons a as ih =>
    cases h : p a with
    | true => simp [updateFirst, h, List.any_cons, hq a h]
    | false => simp [updateFirst, h, List.any_cons, ih]

/-- Whether the pair already has a read tracker row. -/
def alreadyRead (trs : List TrnNotificationTracker) (n u : Int) : Bool :=
  trs.any (fun t => t.notification_id == n && t.user_id == u && t.is_read)

/-- The in-place update `tracker.is_read = True; tracker.read_at = now`. -/
def setRead (ct : Int) (t : TrnNotificationTracker) : TrnNotificationTracker :=
  { t with is_read := true, read_at := some ct }

/-- `mark_notifications_as_read` as a fold of `markStep`. -/
lemma mark_eq (db : DB) (ids : List Int) (u tm : Int) :
    mark_notifications_as_read db ids u tm =
      ((ids.foldl (markStep u (tm + istOffsetMinutes)) (0, db.trackers)).1,
       { db with trackers :=
          (ids.foldl (markStep u (tm + istOffsetMinutes))
            (0, db.trackers)).2 }) := by
  simp only [mark_notifications_as_read]

/-- A single-notification mark call is one `markStep`. -/
lemma mark_single (db : DB) (n u tm : Int) :
    mark_notifications_as_read db [n] u tm =
      ((markStep u (tm + istOffsetMinutes) (0, db.trackers) n).1,
       { db with trackers :=
          (markStep u (tm + istOffsetMinutes) (0, db.trackers) n).2 }) := by
  rw [mark_eq]
  rfl

/-- `markStep` when no tracker row exists: create one in the read state. -/
lemma markStep_none (u ct : Int) (c : Nat)
    (trs : List TrnNotificationTracker) (nid : Int)
    (hf : trs.find? (fun t =>
      t.notification_id == nid && t.user_id == u) = none) :
    markStep u ct (c, trs) nid =
      (c + 1, trs ++ [⟨nid, u, true, some ct⟩]) := by
  simp [markStep, hf]

/-- `markStep` on an already-read row: nothing changes, nothing counted. -/
lemma markStep_read (u ct : Int) (c : Nat)
    (trs : List TrnNotificationTracker) (nid : Int)
    (tr : TrnNotificationTracker)
    (hf : trs.find? (fun t =>
      t.notification_id == nid && t.user_id == u) = some tr)
    (hr : tr.is_read = true) :
    markStep u ct (c, trs) nid = (c, trs) := by
  simp [markStep, hf, hr]

/-- `markStep` on an unread row: flip it in place. -/
lemma markStep_unread (u ct : Int) (c : Nat)
    (trs : List TrnNotificationTracker) (nid : Int)
    (tr : TrnNotificationTracker)
    (hf : trs.find? (fun t =>
      t.notification_id == nid && t.user_id == u) = some tr)
    (hr : tr.is_read = false) :
    markStep u ct (c, trs) nid =
      (c + 1, updateFirst (fun t =>
        t.notification_id == nid && t.user_id == u) (setRead ct) trs) := by
  simp [markStep, hf, hr]
  rfl

/-- The mark-as-read fold never unreads a read row and never alters its
`read_at`. -/
lemma markLoop_preserves_read (v ct : Int) :
    ∀ (ids : List Int) (st : Nat × List TrnNotificationTracker)
      (t : TrnNotificationTracker), t ∈ st.2 → t.is_read = true →
      t ∈ (ids.foldl (markStep v ct) st).2 := by
  intro ids
  induction ids with
  | nil => intro st t h _; exact h
  | cons nid rest ih =>
    intro st t hmem hread
    rw [List.foldl_cons]
    refine ih _ t ?_ hread
    rcases st with ⟨c, trs⟩
    cases hf : trs.find? (fun t =>
        t.notification_id == nid && t.user_id == v) with
    | none =>
      rw [markStep_none v ct c trs nid hf]
      exact List.mem_append_left _ hmem
    | some tr =>
      cases hb : tr.is_read with
      | true => rw [markStep_read v ct c trs nid tr hf hb]; exact hmem
      | false =>
        rw [markStep_unread v ct c trs nid tr hf hb]
        refine mem_updateFirst_of_find?_ne _ _ t trs hmem ?_
        rw [hf]
        intro he
        injection he with he'
        rw [he'] at hb
        rw [hb] at hread
        cases hread

/-! ## Claim C6 -/

/-- C6: marking a pair read twice leaves exactly one read tracker row for
the pair; the second call returns 0 and changes nothing (neither `read_at`
nor a duplicate row); a pair with no tracker gets one created directly in
the read state; and no mark-as-read call ever flips a read row back or
touches its `read_at`. -/
theorem C6_mark_read_idempotent (db : DB) (n u t1 t2 : Int)
    (hU : (pairRows db.trackers n u).length ≤ 1) :
    (pairRows (mark_notifications_as_read db [n] u t1).2.trackers n u).length
        = 1 ∧
    (∀ t ∈ pairRows (mark_notifications_as_read db [n] u t1).2.trackers n u,
      t.is_read = true) ∧
    mark_notifications_as_read
        (mark_notifications_as_read db [n] u t1).2 [n] u t2 =
      (0, (mark_notifications_as_read db [n] u t1).2) ∧
    (pairRows db.trackers n u = [] →
      (mark_notifications_as_read db [n] u t1).2.trackers =
        db.trackers ++
          [⟨n, u, true, some (t1 + istOffsetMinutes)⟩]) ∧
    (∀ (ids : List Int) (v tm : Int) (t : TrnNotificationTracker),
      t ∈ db.trackers → t.is_read = true →
      t ∈ (mark_notifications_as_read db ids v tm).2.trackers) := by
  have hmono : ∀ (ids : List Int) (v tm : Int)
      (t : TrnNotificationTracker), t ∈ db.trackers → t.is_read = true →
      t ∈ (mark_notifications_as_read db ids v tm).2.trackers := by
    intro ids v tm t hmem hread
    rw [mark_eq]
    exact markLoop_preserves_read v (tm + istOffsetMinutes) ids
      (0, db.trackers) t hmem hread
  rw [mark_single db n u t1]
  cases hf : db.trackers.find? (fun t =>
      t.notification_id == n && t.user_id == u) with
  | none =>
    have hnil : pairRows db.trackers n u = [] := by
      rw [find?_eq_filter_head?] at hf
      rcases hfl : db.trackers.filter (fun t =>
        t.notification_id == n && t.user_id == u) with _ | ⟨x, xs⟩
      · exact hfl
      · rw [hfl] at hf; cases hf
    rw [markStep_none u (t1 + istOffsetMinutes) 0 db.trackers n hf]
    have hpr : pairRows (db.trackers ++
        [⟨n, u, true, some (t1 + istOffsetMinutes)⟩]) n u =
        [⟨n, u, true, some (t1 + istOffsetMinutes)⟩] := by
      rw [pairRows, List.filter_append]
      rw [pairRows] at hnil
      rw [hnil, List.nil_append]
      simp
    refine ⟨by rw [hpr]; rfl, ?_, ?_, fun _ => rfl, hmono⟩
    · intro t ht
      rw [hpr, List.mem_singleton] at ht
      rw [ht]
    · rw [mark_single]
      have hf2 : (db.trackers ++
          [(⟨n, u, true, some (t1 + istOffsetMinutes)⟩ :
            TrnNotificationTracker)]).find? (fun t =>
          t.notification_id == n && t.user_id == u) =
          some ⟨n, u, true, some (t1 + istOffsetMinutes)⟩ := by
        rw [List.find?_append, hf]
        simp
      rw [markStep_read u (t2 + istOffsetMinutes) 0 _ n _ hf2 rfl]
  | some tr =>
    have hsingle : pairRows db.trackers n u = [tr] := by
      rw [find?_eq_filter_head?] at hf
      exact filter_singleton_of_head? hf hU
    cases hr : tr.is_read with
    | true =>
      rw [markStep_read u (t1 + istOffsetMinutes) 0 db.trackers n tr hf hr]
      refine ⟨by rw [show pairRows ({ db with trackers := db.trackers} :
          DB).trackers n u = [tr] from hsingle]; rfl, ?_, ?_, ?_, hmono⟩
      · intro t ht
        rw [show pairRows ({ db with trackers := db.trackers} : DB).trackers
          n u = [tr] from hsingle, List.mem_singleton] at ht
        rw [ht, hr]
      · rw [mark_single]
        rw [markStep_read u (t2 + istOffsetMinutes) 0 _ n tr hf hr]
      · intro hnil
        rw [hnil] at hsingle
        cases hsingle
    | false =>
      rw [markStep_unread u (t1 + istOffsetMinutes) 0 db.trackers n tr hf hr]
      have hpf : ∀ t : TrnNotificationTracker,
          ((setRead (t1 + istOffsetMinutes) t).notification_id == n &&
           (setRead (t1 + istOffsetMinutes) t).user_id == u) =
          (t.notification_id == n && t.user_id == u) := fun t => rfl
      have hflt := filter_updateFirst_self
        (fun t => t.notification_id == n && t.user_id == u)
        (setRead (t1 + istOffsetMinutes)) hpf db.trackers
      rw [pairRows] at hsingle
      rw [hsingle] at hflt
      refine ⟨?_, ?_, ?_, ?_, hmono⟩
      · rw [pairRows, hflt]
        rfl
      · intro t ht
        rw [pairRows, hflt, List.mem_singleton] at ht
        rw [ht]
        rfl
      · rw [mark_single]
        have hf2 := find?_updateFirst
          (fun t => t.notification_id == n && t.user_id == u)
          (setRead (t1 + istOffsetMinutes)) hpf db.trackers
        rw [hf] at hf2
        rw [markStep_read u (t2 + istOffsetMinutes) 0 _ n
          (setRead (t1 + istOffsetMinutes) tr) hf2 rfl]
      · intro hnil
        rw [pairRows] at hnil
        rw [hnil] at hsingle
        cases hsingle

/-- Witness: C6 at an empty store — the first call creates the tracker in
the read state, the second is a no-op. -/
theorem C6_mark_read_idempotent_witness :
    (pairRows (mark_notifications_as_read ({} : DB) [4] 9 100).2.trackers
      4 9).length = 1 ∧
    (∀ t ∈ pairRows (mark_notifications_as_read ({} : DB) [4] 9 100).2.trackers
      4 9, t.is_read = true) ∧
    mark_notifications_as_read
        (mark_notifications_as_read ({} : DB) [4] 9 100).2 [4] 9 200 =
      (0, (mark_notifications_as_read ({} : DB) [4] 9 100).2) ∧
    (pairRows ({} : DB).trackers 4 9 = [] →
      (mark_notifications_as_read ({} : DB) [4] 9 100).2.trackers =
        ({} : DB).trackers ++ [⟨4, 9, true, some (100 + istOffsetMinutes)⟩]) ∧
    (∀ (ids : List Int) (v tm : Int) (t : TrnNotificationTracker),
      t ∈ ({} : DB).trackers → t.is_read = true →
      t ∈ (mark_notifications_as_read ({} : DB) ids v tm).2.trackers) :=
  C6_mark_read_idempotent {} 4 9 100 200 (by decide)

/-! ## Claim C10 -/

/-- An unmatched `find?` means no pair row exists. -/
lemma filter_nil_of_find?_none {α : Type} {p : α → Bool} {l : List α}
    (hf : l.find? p = none) : l.filter p = [] := by
  rw [find?_eq_filter_head?] at hf
  cases hfl : l.filter p with
  | nil => rfl
  | cons x xs => rw [hfl] at hf; cases hf

/-- Appending a row of a different notification does not change
`alreadyRead`. -/
lemma alreadyRead_append_ne (trs : List TrnNotificationTracker)
    (row : TrnNotificationTracker) (m u : Int)
    (hm : (row.notification_id == m) = false) :
    alreadyRead (trs ++ [row]) m u = alreadyRead trs m u := by
  rw [alreadyRead, alreadyRead, List.any_append]
  simp [hm]

/-- Flipping the tracker of a different notification does not change
`alreadyRead`. -/
lemma alreadyRead_updateFirst_ne (trs : List TrnNotificationTracker)
    (nid u m ct : Int) (hne : m ≠ nid) :
    alreadyRead (updateFirst (fun t =>
        t.notification_id == nid && t.user_id == u) (setRead ct) trs) m u =
      alreadyRead trs m u := by
  rw [alreadyRead, alreadyRead]
  apply any_updateFirst
  intro a hpa
  simp only [Bool.and_eq_true, beq_iff_eq] at hpa
  have h1 : (a.notification_id == m) = false := by
    rw [beq_eq_false_iff_ne, hpa.1]
    exact fun hc => hne hc.symm
  have h2 : ((setRead ct a).notification_id == m) = false := h1
  simp [h1, h2]

/-- Flipping the first pair row preserves all per-pair row counts. -/
lemma pairRows_updateFirst_length (trs : List TrnNotificationTracker)
    (nid u ct : Int) (m : Int) :
    (pairRows (updateFirst (fun t =>
        t.notification_id == nid && t.user_id == u) (setRead ct) trs)
      m u).length = (pairRows trs m u).length := by
  by_cases hm : m = nid
  · subst hm
    rw [pairRows, filter_updateFirst_self (fun t =>
      t.notification_id == m && t.user_id == u) (setRead ct)
      (fun t => rfl), pairRows]
    cases hfl : trs.filter (fun t =>
        t.notification_id == m && t.user_id == u) with
    | nil => rfl
    | cons a as => rfl
  · rw [pairRows, pairRows, filter_updateFirst_other]
    intro a hpa
    simp only [Bool.and_eq_true, beq_iff_eq] at hpa
    have h1 : (a.notification_id == m) = false := by
      rw [beq_eq_false_iff_ne, hpa.1]
      exact fun hc => hm hc.symm
    have h2 : ((setRead ct a).notification_id == m) = false := h1
    constructor
    · simp [h1]
    · simp [h2]

/-- The mark-as-read fold counts exactly the notification ids whose pair had
no read tracker at call time. -/
lemma markLoop_count (u ct : Int) :
    ∀ (ids : List Int) (c : Nat) (trs : List TrnNotificationTracker),
      ids.Nodup → (∀ m, (pairRows trs m u).length ≤ 1) →
      (ids.foldl (markStep u ct) (c, trs)).1 =
        c + (ids.filter (fun m => !alreadyRead trs m u)).length := by
  intro ids
  induction ids with
  | nil => intro c trs _ _; simp
  | cons nid rest ih =>
    intro c trs hnd hU
    have hnid : nid ∉ rest := (List.nodup_cons.mp hnd).1
    have hnd' : rest.Nodup := (List.nodup_cons.mp hnd).2
    rw [List.foldl_cons, List.filter_cons]
    cases hf : trs.find? (fun t =>
        t.notification_id == nid && t.user_id == u) with
    | none =>
      have hnil : pairRows trs nid u = [] := filter_nil_of_find?_none hf
      have hA : alreadyRead trs nid u = false := by
        by_contra hc
        have hc' : alreadyRead trs nid u = true := by
          revert hc; cases alreadyRead trs nid u <;> simp
        obtain ⟨t, ht, hq⟩ := List.any_eq_true.mp hc'
        simp only [Bool.and_eq_true] at hq
        have hmem : t ∈ pairRows trs nid u := List.mem_filter.mpr
          ⟨ht, by rw [Bool.and_eq_true]; exact ⟨hq.1.1, hq.1.2⟩⟩
        rw [hnil] at hmem
        cases hmem
      rw [markStep_none u ct c trs nid hf]
      have hU' : ∀ m, (pairRows (trs ++
          [(⟨nid, u, true, some ct⟩ : TrnNotificationTracker)]) m u).length
            ≤ 1 := by
        intro m
        rw [pairRows, List.filter_append]
        by_cases hm : m = nid
        · subst hm
          rw [pairRows] at hnil
          rw [hnil, List.nil_append]
          simp
        · have : ((⟨nid, u, true, some ct⟩ :
              TrnNotificationTracker).notification_id == m) = false := by
            rw [beq_eq_false_iff_ne]
            exact fun hc => hm hc.symm
          simp only [List.filter, this, Bool.false_and, List.append_nil]
          exact hU m
      rw [ih (c + 1) _ hnd' hU']
      have hrest : rest.filter (fun m => !alreadyRead (trs ++
          [(⟨nid, u, true, some ct⟩ : TrnNotificationTracker)]) m u) =
          rest.filter (fun m => !alreadyRead trs m u) := by
        apply List.filter_congr
        intro m hm
        rw [alreadyRead_append_ne]
        rw [beq_eq_false_iff_ne]
        intro hc
        have heq : nid = m := hc
        exact hnid (by rw [heq]; exact hm)
      rw [hrest, hA]
      simp only [Bool.not_false, if_true, List.length_cons]
      omega
    | some tr =>
      have hsingle : pairRows trs nid u = [tr] := by
        rw [find?_eq_filter_head?] at hf
        exact filter_singleton_of_head? hf (hU nid)
      have hptr := List.find?_some hf
      cases hb : tr.is_read with
      | true =>
        have hA : alreadyRead trs nid u = true := by
          refine List.any_eq_true.mpr ⟨tr, List.mem_of_find?_eq_some hf, ?_⟩
          rw [Bool.and_eq_true]
          exact ⟨hptr, hb⟩
        rw [markStep_read u ct c trs nid tr hf hb, ih c trs hnd' hU, hA]
        simp
      | false =>
        have hA : alreadyRead trs nid u = false := by
          by_contra hc
          have hc' : alreadyRead trs nid u = true := by
            revert hc; cases alreadyRead trs nid u <;> simp
          obtain ⟨t, ht, hq⟩ := List.any_eq_true.mp hc'
          simp only [Bool.and_eq_true] at hq
          have hmem : t ∈ pairRows trs nid u := List.mem_filter.mpr
            ⟨ht, by rw [Bool.and_eq_true]; exact ⟨hq.1.1, hq.1.2⟩⟩
          rw [hsingle, List.mem_singleton] at hmem
          rw [hmem] at hq
          rw [hq.2] at hb
          cases hb
        rw [markStep_unread u ct c trs nid tr hf hb]
        have hU' : ∀ m, (pairRows (updateFirst (fun t =>
            t.notification_id == nid && t.user_id == u) (setRead ct) trs)
              m u).length ≤ 1 := by
          intro m
          rw [pairRows_updateFirst_length]
          exact hU m
        rw [ih (c + 1) _ hnd' hU']
        have hrest : rest.filter (fun m => !alreadyRead (updateFirst (fun t =>
            t.notification_id == nid && t.user_id == u) (setRead ct) trs)
              m u) = rest.filter (fun m => !alreadyRead trs m u) := by
          apply List.filter_congr
          intro m hm
          rw [alreadyRead_updateFirst_ne trs nid u m ct
            (fun hc => hnid (hc ▸ hm))]
        rw [hrest, hA]
        simp only [Bool.not_false, if_true, List.length_cons]
        omega

/-- C10: `mark_notifications_as_read` returns exactly the number of pairs
whose read state changed — ids whose tracker was already read contribute 0,
newly created or newly flipped trackers contribute 1 each. -/
theorem C10_mark_count (db : DB) (ids : List Int) (u now : Int)
    (hnd : ids.Nodup)
    (hU : ∀ m, (pairRows db.trackers m u).length ≤ 1) :
    (mark_notifications_as_read db ids u now).1 =
      (ids.filter (fun m => !alreadyRead db.trackers m u)).length := by
  rw [mark_eq]
  rw [markLoop_count u (now + istOffsetMinutes) ids 0 db.trackers hnd hU]
  simp

/-- Witness: C10 at a store where notification 4 is already read and
notification 5 has no tracker — the call reports one change. -/
theorem C10_mark_count_witness :
    (mark_notifications_as_read
      { trackers := [⟨4, 9, true, some 0⟩] } [4, 5] 9 100).1 =
      ([4, 5].filter (fun m => !alreadyRead
        ({ trackers := [⟨4, 9, true, some 0⟩] } : DB).trackers m 9)).length :=
  C10_mark_count { trackers := [⟨4, 9, true, some 0⟩] } [4, 5] 9 100
    (by decide) (fun m => List.length_filter_le _ _)

/-! ## Claim C7 -/

/-- Members of a sorted insertion are the inserted element or old
members. -/
lemma mem_insertSortedBy {α : Type} (key : α → Int) (a x : α) :
    ∀ l : List α, x ∈ insertSortedBy key a l ↔ x = a ∨ x ∈ l := by
  intro l
  induction l with
  | nil => simp [insertSortedBy]
  | cons b bs ih =>
    rw [insertSortedBy]
    by_cases hk : key b < key a
    · rw [if_pos hk]
      simp only [List.mem_cons, ih]
      tauto
    · rw [if_neg hk]
      simp only [List.mem_cons]

/-- Sorted insertion preserves sortedness by the key. -/
lemma pairwise_insertSortedBy {α : Type} (key : α → Int) (a : α) :
    ∀ l : List α, l.Pairwise (fun p q => key p ≤ key q) →
      (insertSortedBy key a l).Pairwise (fun p q => key p ≤ key q) := by
  intro l
  induction l with
  | nil => intro _; exact List.pairwise_singleton _ a
  | cons b bs ih =>
    intro h
    have hP := List.pairwise_cons.mp h
    rw [insertSortedBy]
    by_cases hk : key b < key a
    · rw [if_pos hk]
      refine List.pairwise_cons.mpr ⟨?_, ih hP.2⟩
      intro x hx
      rcases (mem_insertSortedBy key a x bs).mp hx with rfl | hxm
      · exact le_of_lt hk
      · exact hP.1 x hxm
    · rw [if_neg hk]
      have hk' : key a ≤ key b := le_of_not_lt hk
      refine List.pairwise_cons.mpr ⟨?_, h⟩
      intro x hx
      rcases List.mem_cons.mp hx with rfl | hxm
      · exact hk'
      · exact le_trans hk' (hP.1 x hxm)

/-- `ORDER BY` output is sorted by the key. -/
lemma pairwise_sortByKey {α : Type} (key : α → Int) (l : List α) :
    (sortByKey key l).Pairwise (fun p q => key p ≤ key q) := by
  rw [sortByKey]
  induction l with
  | nil => exact List.Pairwise.nil
  | cons a as ih =>
    rw [List.foldr_cons]
    exact pairwise_insertSortedBy key a _ ih

/-- Example store for C7: one location with two active checkpoints stored
out of sequence order (orders 2 then 1), wildcard grants on everything. -/
def exDbC7 : DB := {
  users := [{ id := 1, company_id := 1, role := "admin" }],
  locations := [{ location_id := 10, company_id := 1 }],
  checkpoints := [
    { checkpoint_id := 101, location_id := 10, sequence_order := 2 },
    { checkpoint_id := 102, location_id := 10, sequence_order := 1 }],
  tabs := [{ tab_id := 1, display_order := 5 },
           { tab_id := 2, display_order := 3 }],
  access_controls := [
    { user_id := 1, access_type := "location", access_data := .sqlNull },
    { user_id := 1, access_type := "checkpoint", access_data := .sqlNull },
    { user_id := 1, access_type := "tab", access_data := .sqlNull }] }

/-- C7 counterexample: the composed view lists the location's checkpoints
with sequence orders `[2, 1]` — the checkpoint query has no ORDER BY, so
checkpoints are not sorted by `sequence_order`. -/
theorem C7_counterexample :
    (get_user_access_control exDbC7 1).map (fun v =>
      v.locations.map (fun l => l.checkpoints.map
        (fun c => c.sequence_order))) = some [[2, 1]] ∧
    ¬ List.Pairwise (fun a b : Int => a ≤ b) [2, 1] := by
  decide

/-- C7 (amended): in every composed hierarchical view the tabs are sorted
by `display_order`; the checkpoints within a location appear in resource
catalog order, not sorted by `sequence_order`. -/
theorem C7_tabs_sorted (db : DB) (uid : Int) (v : AccessView)
    (h : get_user_access_control db uid = some v) :
    v.tabs.Pairwise (fun a b => a.display_order ≤ b.display_order) := by
  simp only [get_user_access_control] at h
  cases hu : db.users.find? (fun u => u.id == uid) with
  | none => rw [hu] at h; cases h
  | some w =>
    rw [hu] at h
    cases hts : scanRouteEntries (List.filter (fun a =>
        a.access_type == "tab") (List.filter (fun a =>
        a.user_id == uid && !a.disabled && !a.is_deleted)
        db.access_controls)) with
    | none => rw [hts] at h; cases h
    | some tabScan =>
      rw [hts] at h
      cases hcs : scanComponentEntries (List.filter (fun a =>
          a.access_type == "component") (List.filter (fun a =>
          a.user_id == uid && !a.disabled && !a.is_deleted)
          db.access_controls)) with
      | none => rw [hcs] at h; cases h
      | some compScan =>
        rw [hcs] at h
        cases hls : scanRouteEntries (List.filter (fun a =>
            a.access_type == "location") (List.filter (fun a =>
            a.user_id == uid && !a.disabled && !a.is_deleted)
            db.access_controls)) with
        | none => rw [hls] at h; cases h
        | some locScan =>
          rw [hls] at h
          cases hps : scanRouteEntries (List.filter (fun a =>
              a.access_type == "checkpoint") (List.filter (fun a =>
              a.user_id == uid && !a.disabled && !a.is_deleted)
              db.access_controls)) with
          | none => rw [hps] at h; cases h
          | some cpScan =>
            rw [hps] at h
            cases h
            rw [List.pairwise_map]
            cases tabScan with
            | none => exact pairwise_sortByKey _ _
            | some ids => exact pairwise_sortByKey _ _

/-- The composed view of the C7 example store. -/
def exC7View : AccessView := {
  tabs := [{ tab_id := 2, display_order := 3, components := [] },
           { tab_id := 1, display_order := 5, components := [] }],
  locations := [
    { location_id := 10, compute_boxes := [],
      checkpoints := [
        { checkpoint_id := 101, sequence_order := 2, cameras := [] },
        { checkpoint_id := 102, sequence_order := 1, cameras := [] }] }] }

/-- Witness: the amended C7 at the example store — its two tabs come out
with display orders 3 then 5. -/
theorem C7_tabs_sorted_witness :
    exC7View.tabs.Pairwise (fun a b => a.display_order ≤ b.display_order) :=
  C7_tabs_sorted exDbC7 1 exC7View (by rfl)

/-! ## Claim C8 -/

/-- Payload shapes that contribute nothing to either expansion or fan-out:
the empty string, unparsable JSON, a non-dict payload, or a dict whose
`access_ids` is a non-iterable scalar.  (A NULL cell is a wildcard, and an
iterable `access_ids` — array, string or dict — can contribute.) -/
def grantPayloadInert (cell : AccessData) : Bool :=
  match cell with
  | .sqlNull => false
  | .emptyStr => true
  | .badJson => true
  | .parsed j =>
    match j with
    | .obj fields =>
      match (jlookup fields "access_ids").getD (.arr []) with
      | .num _ => true
      | .bool _ => true
      | .null => true
      | _ => false
    | _ => true

/-- Remove every grant row whose payload is inert. -/
def dropInertGrants (db : DB) : DB :=
  { db with access_controls := db.access_controls.filter (fun a =>
      !grantPayloadInert a.access_data) }

/-- An inert payload contributes no ids in the explicit branch. -/
lemma rowExplicitIds_inert (cell : AccessData)
    (h : grantPayloadInert cell = true) : rowExplicitIds cell = [] := by
  cases cell with
  | sqlNull => simp [grantPayloadInert] at h
  | emptyStr => rfl
  | badJson => rfl
  | parsed j =>
    cases j with
    | null => rfl
    | bool b => rfl
    | num n => rfl
    | str s => rfl
    | arr a => rfl
    | obj fields =>
      replace h : (match (jlookup fields "access_ids").getD (.arr []) with
        | Json.num _ => true
        | Json.bool _ => true
        | Json.null => true
        | _ => false) = true := h
      rw [rowExplicitIds]
      cases hv : (jlookup fields "access_ids").getD (.arr []) with
      | num n => simp [getAccessIdsVal, hv, pyIterElems]
      | bool b => simp [getAccessIdsVal, hv, pyIterElems]
      | null => simp [getAccessIdsVal, hv, pyIterElems]
      | str s => rw [hv] at h; simp at h
      | arr a => rw [hv] at h; simp at h
      | obj o => rw [hv] at h; simp at h

/-- An inert payload never covers a location in the fan-out's raw test. -/
lemma grantCoversRaw_inert (cell : AccessData) (l : Int)
    (h : grantPayloadInert cell = true) : grantCoversRaw cell l = false := by
  cases cell with
  | sqlNull => simp [grantPayloadInert] at h
  | emptyStr => rfl
  | badJson => rfl
  | parsed j =>
    cases j with
    | null => rfl
    | bool b => rfl
    | num n => rfl
    | str s => rfl
    | arr a => rfl
    | obj fields =>
      replace h : (match (jlookup fields "access_ids").getD (.arr []) with
        | Json.num _ => true
        | Json.bool _ => true
        | Json.null => true
        | _ => false) = true := h
      rw [grantCoversRaw]
      cases hv : (jlookup fields "access_ids").getD (.arr []) with
      | num n => simp [hv, pyIntMem]
      | bool b => simp [hv, pyIntMem]
      | null => simp [hv, pyIntMem]
      | str s => rw [hv] at h; simp at h
      | arr a => rw [hv] at h; simp at h
      | obj o => rw [hv] at h; simp at h

/-- Dropping inert rows commutes with the active-location-grant filter. -/
lemma activeLocationGrants_dropInert (db : DB) (uid : Int) :
    activeLocationGrants (dropInertGrants db) uid =
      (activeLocationGrants db uid).filter (fun a =>
        !grantPayloadInert a.access_data) := by
  unfold activeLocationGrants dropInertGrants
  rw [List.filter_filter, List.filter_filter]
  apply List.filter_congr
  intro a _
  rw [Bool.and_comm]

/-- Dropping inert rows does not change the explicit-branch fold. -/
lemma foldl_rowExplicit_filter_inert (gs : List TrnAccessControl) :
    ∀ init : List Json,
      (gs.filter (fun a => !grantPayloadInert a.access_data)).foldl
        (fun acc a => acc ++ rowExplicitIds a.access_data) init =
      gs.foldl (fun acc a => acc ++ rowExplicitIds a.access_data) init := by
  induction gs with
  | nil => intro init; rfl
  | cons g gs ih =>
    intro init
    cases hin : grantPayloadInert g.access_data with
    | true =>
      rw [List.filter_cons_of_neg (by simp [hin]), List.foldl_cons,
        rowExplicitIds_inert g.access_data hin, List.append_nil, ih]
    | false =>
      rw [List.filter_cons_of_pos (by simp [hin]), List.foldl_cons,
        List.foldl_cons, ih]

/-- Dropping inert rows does not change whether a NULL grant exists. -/
lemma any_sqlNull_filter_inert (gs : List TrnAccessControl) :
    (gs.filter (fun a => !grantPayloadInert a.access_data)).any
      (fun a => a.access_data == .sqlNull) =
    gs.any (fun a => a.access_data == .sqlNull) := by
  induction gs with
  | nil => rfl
  | cons g gs ih =>
    cases hin : grantPayloadInert g.access_data with
    | true =>
      have hns : (g.access_data == AccessData.sqlNull) = false := by
        cases hd : g.access_data with
        | sqlNull => rw [hd] at hin; simp [grantPayloadInert] at hin
        | emptyStr => rfl
        | badJson => rfl
        | parsed j => rfl
      rw [List.filter_cons_of_neg (by simp [hin]), ih, List.any_cons, hns,
        Bool.false_or]
    | false =>
      rw [List.filter_cons_of_pos (by simp [hin]), List.any_cons,
        List.any_cons, ih]

/-- Expansion is invariant under deleting the inert-payload grant rows. -/
lemma assigned_dropInert (db : DB) (uid cid : Int) (role : String) :
    get_user_assigned_locations (dropInertGrants db) uid cid role =
      get_user_assigned_locations db uid cid role := by
  have hG := activeLocationGrants_dropInert db uid
  by_cases hw : (activeLocationGrants db uid).any
      (fun a => a.access_data == .sqlNull) = true
  · have hex : ∃ g ∈ activeLocationGrants db uid,
        g.access_data = AccessData.sqlNull := by
      obtain ⟨g, hg, hgp⟩ := List.any_eq_true.mp hw
      exact ⟨g, hg, by simpa using hgp⟩
    have hex' : ∃ g ∈ activeLocationGrants (dropInertGrants db) uid,
        g.access_data = AccessData.sqlNull := by
      obtain ⟨g, hg, hgd⟩ := hex
      refine ⟨g, ?_, hgd⟩
      rw [hG, List.mem_filter]
      exact ⟨hg, by rw [hgd]; rfl⟩
    rw [assigned_wildcard_eq _ uid cid role hex',
      assigned_wildcard_eq db uid cid role hex]
    rfl
  · have hwf : (activeLocationGrants db uid).any
        (fun a => a.access_data == .sqlNull) = false := by
      revert hw
      cases (activeLocationGrants db uid).any
        (fun a => a.access_data == .sqlNull) <;> simp
    have hwf' : (activeLocationGrants (dropInertGrants db) uid).any
        (fun a => a.access_data == .sqlNull) = false := by
      rw [hG, any_sqlNull_filter_inert]
      exact hwf
    by_cases hne : (activeLocationGrants db uid).isEmpty = true
    · have hnil : activeLocationGrants db uid = [] := List.isEmpty_iff.mp hne
      have hnil' : activeLocationGrants (dropInertGrants db) uid = [] := by
        rw [hG, hnil]
        rfl
      simp [get_user_assigned_locations, hnil, hnil']
    · have hne1 : (activeLocationGrants db uid).isEmpty = false := by
        revert hne
        cases (activeLocationGrants db uid).isEmpty <;> simp
      by_cases hne2 : (activeLocationGrants (dropInertGrants db) uid).isEmpty
          = true
      · have hfnil : (activeLocationGrants db uid).filter (fun a =>
            !grantPayloadInert a.access_data) = [] := by
          rw [← hG]
          exact List.isEmpty_iff.mp hne2
        have hids : (activeLocationGrants db uid).foldl
            (fun acc a => acc ++ rowExplicitIds a.access_data) [] = [] := by
          rw [← foldl_rowExplicit_filter_inert, hfnil]
          rfl
        have hdnil : get_user_assigned_locations (dropInertGrants db)
            uid cid role = [] := by
          have h0 : activeLocationGrants (dropInertGrants db) uid = [] :=
            List.isEmpty_iff.mp hne2
          simp [get_user_assigned_locations, h0]
        rw [hdnil, assigned_explicit_eq db uid cid role hne1 hwf, hids]
        simp
      · have hne2' : (activeLocationGrants (dropInertGrants db) uid).isEmpty
            = false := by
          revert hne2
          cases (activeLocationGrants (dropInertGrants db) uid).isEmpty <;>
            simp
        rw [assigned_explicit_eq db uid cid role hne1 hwf,
          assigned_explicit_eq _ uid cid role hne2' hwf', hG,
          foldl_rowExplicit_filter_inert]
        rfl

/-- Dropping inert rows does not change the fan-out's collected
recipients. -/
lemma fan_entries_dropInert (users : List MstUser) (c l : Int) :
    ∀ ac : List TrnAccessControl,
      (((ac.filter (fun a => !grantPayloadInert a.access_data)).filter
          (fun a => a.access_type == "location" && !a.disabled &&
            !a.is_deleted)).flatMap (fun a =>
          (users.filter (fun u => u.id == a.user_id && u.company_id == c &&
            !u.disabled && !u.is_deleted)).map
            (fun _u => (a.user_id, a.access_data)))).flatMap
        (fun e => if grantCoversRaw e.2 l then [e.1] else []) =
      ((ac.filter (fun a => a.access_type == "location" && !a.disabled &&
          !a.is_deleted)).flatMap (fun a =>
          (users.filter (fun u => u.id == a.user_id && u.company_id == c &&
            !u.disabled && !u.is_deleted)).map
            (fun _u => (a.user_id, a.access_data)))).flatMap
        (fun e => if grantCoversRaw e.2 l then [e.1] else []) := by
  intro ac
  induction ac with
  | nil => rfl
  | cons a as ih =>
    cases hin : grantPayloadInert a.access_data with
    | false =>
      rw [List.filter_cons_of_pos (by simp [hin])]
      by_cases hp : (a.access_type == "location" && !a.disabled &&
          !a.is_deleted) = true
      · rw [List.filter_cons_of_pos (by exact hp),
          List.filter_cons_of_pos (by exact hp),
          List.flatMap_cons, List.flatMap_cons, List.flatMap_append,
          List.flatMap_append, ih]
      · rw [List.filter_cons_of_neg (by exact hp),
          List.filter_cons_of_neg (by exact hp), ih]
    | true =>
      rw [List.filter_cons_of_neg (by simp [hin])]
      by_cases hp : (a.access_type == "location" && !a.disabled &&
          !a.is_deleted) = true
      · rw [List.filter_cons_of_pos (by exact hp), List.flatMap_cons,
          List.flatMap_append]
        have hg : (if grantCoversRaw (a.user_id, a.access_data).2 l then
            [(a.user_id, a.access_data).1] else []) = ([] : List Int) := by
          rw [if_neg]
          rw [grantCoversRaw_inert a.access_data l hin]
          simp
        have hblock : ((users.filter (fun u => u.id == a.user_id &&
            u.company_id == c && !u.disabled && !u.is_deleted)).map
            (fun _u => (a.user_id, a.access_data))).flatMap
            (fun e => if grantCoversRaw e.2 l then [e.1] else []) = [] := by
          generalize users.filter (fun u => u.id == a.user_id &&
            u.company_id == c && !u.disabled && !u.is_deleted) = us
          induction us with
          | nil => rfl
          | cons u us ihu =>
            rw [List.map_cons, List.flatMap_cons, hg, List.nil_append]
            exact ihu
        rw [hblock, List.nil_append, ih]
      · rw [List.filter_cons_of_neg (by exact hp), ih]

/-- Fan-out targeting is invariant under deleting inert-payload rows. -/
lemma users_dropInert (db : DB) (c l : Int) :
    get_users_with_location_access (dropInertGrants db) c l =
      get_users_with_location_access db c l := by
  simp only [get_users_with_location_access]
  rw [fan_collect, fan_collect, List.nil_append, List.nil_append]
  congr 1
  exact fan_entries_dropInert db.users c l db.access_controls

/-- Example store for C8: the only grant's `access_ids` is the JSON string
`"12"` — a wrong-shaped payload. -/
def exDbC8 : DB := {
  locations := [{ location_id := 10, company_id := 1 }],
  access_controls := [
    { user_id := 3, access_type := "location",
      access_data := .parsed (.obj [("access_ids", .str "12")]) }] }

/-- C8 counterexample: the wrong-shaped payload is not a well-formed
explicit grant, yet creator-role expansion returns its characters as two
"ids" — the row does not contribute nothing. -/
theorem C8_counterexample :
    get_user_assigned_locations exDbC8 3 1 "creator" =
      [.str "1", .str "2"] ∧
    get_user_assigned_locations exDbC8 3 1 "creator" ≠ [] ∧
    (∀ g ∈ activeLocationGrants exDbC8 3, isExplicitIntGrant g = false) := by
  decide

/-- C8 (amended): grant rows whose payload is the empty string, unparsable
JSON, a non-dict value, or a dict whose `access_ids` is a non-iterable
scalar contribute nothing: deleting them changes neither expansion nor
fan-out targeting, and neither function surfaces an error (both are total
in the embedding, every modelled exception being caught internally).  A
dict whose `access_ids` is an iterable non-array (a string or dict) is not
covered: its elements leak into creator-role expansion (see the
counterexample). -/
theorem C8_inert_payload_invariance (db : DB) (uid cid : Int)
    (role : String) (c l : Int) :
    get_user_assigned_locations (dropInertGrants db) uid cid role =
      get_user_assigned_locations db uid cid role ∧
    get_users_with_location_access (dropInertGrants db) c l =
      get_users_with_location_access db c l :=
  ⟨assigned_dropInert db uid cid role, users_dropInert db c l⟩

end RoadPulse
